import Mathlib

/-!
Shallow embedding of the entity-lifecycle core of the "Asteroids: Neon Shards"
game (TypeScript sources under `src/`): math utilities, balance configuration,
the `Asteroid`, `Bullet` and `Shard` entities, their managers, and the
asteroid spawner.

Modelling conventions:
* JS numbers are idealised as `ℚ` (the arithmetic appearing in the verified
  claims is exact in IEEE doubles at the relevant magnitudes).
* The transcendental library functions `Math.sqrt`, `Math.cos`, `Math.sin`
  and the constant `Math.PI` are passed as explicit oracle parameters
  (`sqrtq cosq sinq : ℚ → ℚ`, `piQ : ℚ`); none of the verified properties
  depend on their exact values, only occasionally on pointwise facts such as
  `sqrtq 0 = 0` which are stated as hypotheses.
* `Math.random()` is embedded as an explicit stream `rng : ℕ → ℚ` of the
  successive values returned by the generator (each in `[0, 1)`), consumed
  at documented indices.
* Phaser presentation state (sprite frames are kept, but tint, alpha, scale,
  visibility and the sprite `setActive` display flag are not part of the
  simulation and are omitted), and the scene event bus is modelled by
  returning the list of emitted events where a claim depends on them.
-/

set_option autoImplicit false

namespace NeonShards

/-! ## MathUtils (`src/utils/MathUtils.ts`) -/

namespace MathUtils

/-- Source `MathUtils.clamp(value, min, max)`. -/
def clamp (value lo hi : ℚ) : ℚ := min (max value lo) hi

/-- Source `MathUtils.magnitude(x, y) = Math.sqrt(x*x + y*y)`, with the square root
passed as an oracle. -/
def magnitude (sqrtq : ℚ → ℚ) (x y : ℚ) : ℚ := sqrtq (x * x + y * y)

/-- Source `MathUtils.normalize(x, y)`: returns the zero vector when the magnitude is
exactly `0`, otherwise divides both components by the magnitude. -/
def normalize (sqrtq : ℚ → ℚ) (x y : ℚ) : ℚ × ℚ :=
  let mag := magnitude sqrtq x y
  if mag = 0 then (0, 0) else (x / mag, y / mag)

/-- Source `MathUtils.randomFloat(min, max) = Math.random() * (max - min) + min`,
with the `Math.random()` draw `r` made explicit. -/
def randomFloat (r lo hi : ℚ) : ℚ := r * (hi - lo) + lo

/-- Source `MathUtils.randomInt(min, max) = Math.floor(Math.random() * (max - min + 1)) + min`,
with the `Math.random()` draw `r` made explicit. -/
def randomInt (r : ℚ) (lo hi : ℤ) : ℤ := ⌊r * ((hi - lo + 1 : ℤ) : ℚ)⌋ + lo

/-- Source `MathUtils.distance(x1, y1, x2, y2) = magnitude(x2 - x1, y2 - y1)`. -/
def distance (sqrtq : ℚ → ℚ) (x1 y1 x2 y2 : ℚ) : ℚ :=
  magnitude sqrtq (x2 - x1) (y2 - y1)

end MathUtils

/-! ## Balance configuration (`src/config/balance.ts`) -/

inductive AsteroidSize : Type
  | large
  | medium
  | small
deriving DecidableEq, Repr

/-- Source `AsteroidConfig` from `balance.ts` (`splitCount` and `spinRange` tuples are
flattened into min/max fields). -/
structure AsteroidConfig : Type where
  health : ℚ
  speed : ℚ
  splitMin : ℤ
  splitMax : ℤ
  scale : ℚ
  spinMin : ℚ
  spinMax : ℚ
deriving DecidableEq, Repr

/-- Source `ASTEROID_CONFIGS` from `balance.ts`. -/
def ASTEROID_CONFIGS : AsteroidSize → AsteroidConfig
  | .large => { health := 100, speed := 60, splitMin := 2, splitMax := 3,
                scale := 1, spinMin := -60, spinMax := 60 }
  | .medium => { health := 50, speed := 90, splitMin := 2, splitMax := 3,
                 scale := 13 / 20, spinMin := -60, spinMax := 60 }
  | .small => { health := 20, speed := 130, splitMin := 0, splitMax := 0,
                scale := 7 / 20, spinMin := -60, spinMax := 60 }

/-- Source `ASTEROID_SYSTEM_CONFIG.maxActiveCount` from `balance.ts`. -/
def maxActiveCount : ℕ := 20

/-- Source `ASTEROID_SYSTEM_CONFIG.safeSpawnRadius` from `balance.ts`. -/
def safeSpawnRadius : ℚ := 150

/-- Source `ShardConfig` from `balance.ts`; `baseYield` is a natural number per size
(it is used as a loop bound). -/
structure ShardConfig : Type where
  baseYield : AsteroidSize → ℕ
  value : ℚ
  lifespanMs : ℚ
  magnetRadius : ℚ
  magnetForce : ℚ
  collectRadius : ℚ
  maxActiveShards : ℕ

/-- Source `SHARD_CONFIG` from `balance.ts`. -/
def SHARD_CONFIG : ShardConfig where
  baseYield := fun s => match s with
    | .large => 5
    | .medium => 3
    | .small => 1
  value := 10
  lifespanMs := 4000
  magnetRadius := 160
  magnetForce := 200
  collectRadius := 20
  maxActiveShards := 50

/-- Source `WeaponConfig` from `balance.ts`. -/
structure WeaponConfig : Type where
  fireRateHz : ℚ
  bulletSpeed : ℚ
  bulletDamage : ℚ
  bulletLifetimeMs : ℚ
  maxActiveBullets : ℕ
  muzzleOffset : ℚ
deriving DecidableEq, Repr

/-- Source `WEAPON_CONFIG` from `balance.ts`. -/
def WEAPON_CONFIG : WeaponConfig where
  fireRateHz := 4
  bulletSpeed := 520
  bulletDamage := 20
  bulletLifetimeMs := 3000
  maxActiveBullets := 15
  muzzleOffset := 16

/-! ## Asteroid entity (`src/gameobjects/Asteroid.ts`) -/

/-- The `AsteroidData` interface. -/
structure AsteroidData : Type where
  id : ℕ
  size : AsteroidSize
  health : ℚ
  maxHealth : ℚ
  velX : ℚ
  velY : ℚ
  angularVelocity : ℚ
  posX : ℚ
  posY : ℚ
deriving DecidableEq, Repr

/-- Simulation state of an `Asteroid` sprite: identity, size, health, the
`isActive` lifecycle flag, physics state, and the damage-tier sprite frame. -/
structure Asteroid : Type where
  id : ℕ
  size : AsteroidSize
  currentHealth : ℚ
  maxHealth : ℚ
  isActive : Bool
  posX : ℚ
  posY : ℚ
  velX : ℚ
  velY : ℚ
  angularVelocity : ℚ
  lastDamageFrame : ℕ
deriving DecidableEq, Repr

namespace Asteroid

/-- The frame computation inside `updateDamageFrame`, as a function of
`healthPercent = currentHealth / maxHealth` (100% → frame 0, … , ≤20% → 4). -/
def damageFrame (healthPercent : ℚ) : ℕ :=
  if 4 / 5 < healthPercent then 0
  else if 3 / 5 < healthPercent then 1
  else if 2 / 5 < healthPercent then 2
  else if 1 / 5 < healthPercent then 3
  else 4

/-- Source `new Asteroid(scene, x, y, size)`: fresh instance at full health, active,
with the id drawn from the static counter (threaded explicitly). -/
def construct (nextId : ℕ) (x y : ℚ) (size : AsteroidSize) : Asteroid where
  id := nextId
  size := size
  currentHealth := (ASTEROID_CONFIGS size).health
  maxHealth := (ASTEROID_CONFIGS size).health
  isActive := true
  posX := x
  posY := y
  velX := 0
  velY := 0
  angularVelocity := 0
  lastDamageFrame := 0

/-- The asteroid's POOLED→ACTIVE transition (named after the source method;
that name is a Lean keyword).  When `velocity` is absent,
`setRandomVelocity` draws a direction `rng 0 * 2π` at the size's configured
speed; when `angularVelocity` is absent, `setRandomAngularVelocity` draws
`randomFloat (rng 1) spinMin spinMax`.  The final `updateDamageFrame` call at
full health yields frame `0`. -/
def initAsteroid (a : Asteroid) (x y : ℚ) (velocity : Option (ℚ × ℚ))
    (angularVel : Option ℚ) (cosq sinq : ℚ → ℚ) (piQ : ℚ) (rng : ℕ → ℚ) :
    Asteroid :=
  let cfg := ASTEROID_CONFIGS a.size
  let a := { a with posX := x, posY := y, currentHealth := a.maxHealth,
                    isActive := true }
  let a := match velocity with
    | some v => { a with velX := v.1, velY := v.2 }
    | none =>
        let angle := rng 0 * piQ * 2
        { a with velX := cosq angle * cfg.speed, velY := sinq angle * cfg.speed }
  let a := match angularVel with
    | some av => { a with angularVelocity := av }
    | none =>
        { a with angularVelocity := MathUtils.randomFloat (rng 1) cfg.spinMin cfg.spinMax }
  { a with lastDamageFrame := 0 }

/-- Source `Asteroid.takeDamage(damage)`: no-op returning `false` when inactive;
otherwise subtracts, refreshes the damage frame from the un-floored health,
then floors the health at `0` and reports destruction. -/
def takeDamage (a : Asteroid) (damage : ℚ) : Asteroid × Bool :=
  if a.isActive then
    let h := a.currentHealth - damage
    let a := { a with currentHealth := h,
                      lastDamageFrame := damageFrame (h / a.maxHealth) }
    if h ≤ 0 then ({ a with currentHealth := 0 }, true) else (a, false)
  else (a, false)

/-- Source `Asteroid.getNextSmallerSize()`. -/
def getNextSmallerSize (a : Asteroid) : AsteroidSize :=
  match a.size with
  | .large => .medium
  | .medium => .small
  | .small => .small

/-- Source `Asteroid.calculateSplitVelocities(count)`.  Per fragment `i` the code
draws a jitter (`rng (2*i)`) and a speed factor (`rng (2*i+1)`); the fragment
direction is `2π·i/count + jitter` and the magnitudes use the inheritance
factor `0.3` and random factor `0.7` from the source. -/
def calculateSplitVelocities (a : Asteroid) (cosq sinq sqrtq : ℚ → ℚ)
    (piQ : ℚ) (rng : ℕ → ℚ) (count : ℕ) : List (ℚ × ℚ) :=
  let parentSpeed := sqrtq (a.velX * a.velX + a.velY * a.velY)
  (List.range count).map fun (i : ℕ) =>
    let angle := piQ * 2 * (i : ℚ) / (count : ℚ) +
      MathUtils.randomFloat (rng (2 * i)) (-(1 / 2)) (1 / 2)
    let inheritedX := a.velX * (3 / 10)
    let inheritedY := a.velY * (3 / 10)
    let randomSpeed := parentSpeed * (7 / 10) *
      MathUtils.randomFloat (rng (2 * i + 1)) (1 / 2) (3 / 2)
    (inheritedX + cosq angle * randomSpeed, inheritedY + sinq angle * randomSpeed)

/-- Source `Asteroid.split()`: empty for inactive or SMALL asteroids; otherwise draws
`splitCount = randomInt (rng 0) splitMin splitMax` fragments of the successor
size at full successor health.  `rng` consumption: index `0` for the count,
indices `1 .. 2·count` inside `calculateSplitVelocities`, and index
`1 + 2·count + i` for fragment `i`'s angular velocity.  Fragment ids continue
the static counter from `nextId`. -/
def split (a : Asteroid) (cosq sinq sqrtq : ℚ → ℚ) (piQ : ℚ) (rng : ℕ → ℚ)
    (nextId : ℕ) : List AsteroidData :=
  if !a.isActive || a.size = AsteroidSize.small then []
  else
    let nextSize := a.getNextSmallerSize
    let cfg := ASTEROID_CONFIGS a.size
    let splitCount := (MathUtils.randomInt (rng 0) cfg.splitMin cfg.splitMax).toNat
    let velocities := a.calculateSplitVelocities cosq sinq sqrtq piQ
      (fun n => rng (1 + n)) splitCount
    (List.range splitCount).map fun i =>
      { id := nextId + i
        size := nextSize
        health := (ASTEROID_CONFIGS nextSize).health
        maxHealth := (ASTEROID_CONFIGS nextSize).health
        velX := (velocities.getD i (0, 0)).1
        velY := (velocities.getD i (0, 0)).2
        angularVelocity := MathUtils.randomFloat (rng (1 + 2 * splitCount + i)) (-60) 60
        posX := a.posX
        posY := a.posY }

/-- Source `Asteroid.update(time, delta)` applies screen wrapping only; membership
and health are untouched.  `ScreenWrap.wrap` from `src/utils/ScreenWrap.ts`,
with the sprite's half extent and the camera bounds passed in. -/
def update (a : Asteroid) (halfW halfH left right top bottom : ℚ) : Asteroid :=
  if a.isActive then
    let x := if a.posX + halfW < left then right + halfW
      else if right < a.posX - halfW then left - halfW else a.posX
    let y := if a.posY + halfH < top then bottom + halfH
      else if bottom < a.posY - halfH then top - halfH else a.posY
    { a with posX := x, posY := y }
  else a

/-- Source `Asteroid.reset()`: deactivates, restores full health and frame `0`, and
zeroes the linear and angular velocity.  The source does **not** modify the
position. -/
def reset (a : Asteroid) : Asteroid :=
  { a with isActive := false, currentHealth := a.maxHealth,
           lastDamageFrame := 0, velX := 0, velY := 0, angularVelocity := 0 }

/-- Source `Asteroid.getData()`. -/
def getData (a : Asteroid) : AsteroidData where
  id := a.id
  size := a.size
  health := a.currentHealth
  maxHealth := a.maxHealth
  velX := a.velX
  velY := a.velY
  angularVelocity := a.angularVelocity
  posX := a.posX
  posY := a.posY

end Asteroid

/-! ## Shard entity (`src/gameobjects/Shard.ts`, velocity-blend version) -/

/-- Scene events emitted by a `Shard` (`shard-spawned` / `shard-collected` /
`shard-expired`). -/
inductive ShardEvent : Type
  | spawned
  | collected
  | expired
deriving DecidableEq, Repr

/-- Simulation state of a `Shard` sprite. -/
structure Shard : Type where
  shardId : ℕ
  value : ℚ
  timeToLive : ℚ
  initialLifetime : ℚ
  isActive : Bool
  posX : ℚ
  posY : ℚ
  velX : ℚ
  velY : ℚ
  isBeingAttracted : Bool
  attractionTarget : Option (ℚ × ℚ)
deriving DecidableEq, Repr

namespace Shard

/-- Source `new Shard(scene, x, y)`: inactive, zeroed fields. -/
def construct (x y : ℚ) : Shard where
  shardId := 0
  value := 0
  timeToLive := 0
  initialLifetime := 0
  isActive := false
  posX := x
  posY := y
  velX := 0
  velY := 0
  isBeingAttracted := false
  attractionTarget := none

/-- Source `Shard.spawn(x, y, config, id)`: position, value and lifetime from the
config, a random scatter velocity of magnitude `80` at angle `rng 0 * 2π`,
activation, and the `shard-spawned` event. -/
def spawn (s : Shard) (x y : ℚ) (config : ShardConfig) (id : ℕ)
    (cosq sinq : ℚ → ℚ) (piQ : ℚ) (rng : ℕ → ℚ) : Shard × List ShardEvent :=
  let scatterSpeed : ℚ := 80
  let angle := rng 0 * piQ * 2
  ({ s with shardId := id, value := config.value,
            timeToLive := config.lifespanMs,
            initialLifetime := config.lifespanMs,
            isActive := true, isBeingAttracted := false,
            attractionTarget := none,
            posX := x, posY := y,
            velX := cosq angle * scatterSpeed,
            velY := sinq angle * scatterSpeed },
   [.spawned])

/-- Source `Shard.handleMagneticAttraction(playerPosition, magnetRadius, magnetForce, dt)`.
Within `magnetRadius` the new velocity blends the current velocity with the
attraction velocity `normalize(player − self) · magnetForce · (1 − d/R)` using
the fixed `blendFactor = 0.7`; outside the radius only the attraction flag is
cleared (the dt argument is unused by the source body). -/
def handleMagneticAttraction (s : Shard) (sqrtq : ℚ → ℚ)
    (playerX playerY magnetRadius magnetForce : ℚ) : Shard :=
  let dist := MathUtils.distance sqrtq s.posX s.posY playerX playerY
  if dist ≤ magnetRadius then
    let forceVector := MathUtils.normalize sqrtq (playerX - s.posX) (playerY - s.posY)
    let forceMultiplier := 1 - dist / magnetRadius
    let scaledForce := magnetForce * forceMultiplier
    let attractionX := forceVector.1 * scaledForce
    let attractionY := forceVector.2 * scaledForce
    let blendFactor : ℚ := 7 / 10
    { s with isBeingAttracted := true,
             attractionTarget := some (playerX, playerY),
             velX := s.velX * (1 - blendFactor) + attractionX * blendFactor,
             velY := s.velY * (1 - blendFactor) + attractionY * blendFactor }
  else if s.isBeingAttracted then
    { s with isBeingAttracted := false, attractionTarget := none }
  else s

/-- Source `Shard.deactivate()`: clears the lifecycle and attraction flags, zeroes the
velocity and moves the sprite off-screen to `(-100, -100)`. -/
def deactivate (s : Shard) : Shard :=
  { s with isActive := false, isBeingAttracted := false,
           attractionTarget := none, velX := 0, velY := 0,
           posX := -100, posY := -100 }

/-- Source `Shard.expire()`: emits `shard-expired`, then deactivates. -/
def expire (s : Shard) : Shard × List ShardEvent :=
  (s.deactivate, [.expired])

/-- Source `Shard.collect()`: emits `shard-collected`, then deactivates. -/
def collect (s : Shard) : Shard × List ShardEvent :=
  (s.deactivate, [.collected])

/-- Source `Shard.update(dt, playerPosition?, magnetRadius?, magnetForce?)`: no-op
when inactive; decrements `timeToLive` by `dt` and expires (returning early)
when it reaches `≤ 0`; otherwise applies magnetic attraction when all three
optional parameters are supplied and the radius and force are non-zero (the
source guards them with JS truthiness, under which `0` counts as absent). -/
def update (s : Shard) (sqrtq : ℚ → ℚ) (dt : ℚ)
    (playerPosition : Option (ℚ × ℚ)) (magnetRadius magnetForce : Option ℚ) :
    Shard × List ShardEvent :=
  if s.isActive then
    let s := { s with timeToLive := s.timeToLive - dt }
    if s.timeToLive ≤ 0 then s.expire
    else
      match playerPosition, magnetRadius, magnetForce with
      | some p, some mr, some mf =>
          if mr ≠ 0 ∧ mf ≠ 0 then
            (s.handleMagneticAttraction sqrtq p.1 p.2 mr mf, [])
          else (s, [])
      | _, _, _ => (s, [])
  else (s, [])

/-- Applies `Shard.update` once per frame delta in sequence (no magnet
parameters), accumulating the emitted events. -/
def runUpdates (s : Shard) (sqrtq : ℚ → ℚ) : List ℚ → Shard × List ShardEvent
  | [] => (s, [])
  | dt :: dts =>
      let r := s.update sqrtq dt none none none
      let rest := r.1.runUpdates sqrtq dts
      (rest.1, r.2 ++ rest.2)

end Shard

/-! ## Bullet entity (`src/gameobjects/Bullet.ts`) -/

/-- Scene events emitted by a `Bullet` (`bullet-fired` / `bullet-hit` /
`bullet-expired`). -/
inductive BulletEvent : Type
  | fired
  | hit
  | expired
deriving DecidableEq, Repr

/-- Simulation state of a `Bullet` sprite. -/
structure Bullet : Type where
  bulletId : ℕ
  damage : ℚ
  timeToLive : ℚ
  initialLifetime : ℚ
  isActive : Bool
  posX : ℚ
  posY : ℚ
  velX : ℚ
  velY : ℚ
deriving DecidableEq, Repr

namespace Bullet

/-- Source `new Bullet(scene, x, y)`: inactive, zeroed fields. -/
def construct (x y : ℚ) : Bullet where
  bulletId := 0
  damage := 0
  timeToLive := 0
  initialLifetime := 0
  isActive := false
  posX := x
  posY := y
  velX := 0
  velY := 0

/-- Source `Bullet.fire(x, y, angle, config, id)`: damage and lifetime from the
config, velocity `(cos angle, sin angle) · bulletSpeed`, activation, and the
`bullet-fired` event. -/
def fire (b : Bullet) (x y angle : ℚ) (config : WeaponConfig) (id : ℕ)
    (cosq sinq : ℚ → ℚ) : Bullet × List BulletEvent :=
  ({ b with bulletId := id, damage := config.bulletDamage,
            timeToLive := config.bulletLifetimeMs,
            initialLifetime := config.bulletLifetimeMs,
            isActive := true, posX := x, posY := y,
            velX := cosq angle * config.bulletSpeed,
            velY := sinq angle * config.bulletSpeed },
   [.fired])

/-- Source `Bullet.deactivate()`: clears the lifecycle flag, zeroes the velocity and
moves the sprite off-screen to `(-100, -100)`. -/
def deactivate (b : Bullet) : Bullet :=
  { b with isActive := false, velX := 0, velY := 0, posX := -100, posY := -100 }

/-- Source `Bullet.onHit()`: emits `bullet-hit`, then deactivates. -/
def onHit (b : Bullet) : Bullet × List BulletEvent :=
  (b.deactivate, [.hit])

/-- Source `Bullet.expire()`: emits `bullet-expired`, then deactivates. -/
def expire (b : Bullet) : Bullet × List BulletEvent :=
  (b.deactivate, [.expired])

/-- Source `Bullet.update(dt)`: no-op when inactive; decrements `timeToLive` and
expires (returning early) when it reaches `≤ 0`, otherwise screen-wraps
(wrapping is position arithmetic only and is immaterial to the claims, so the
camera bounds are fixed abstract parameters here). -/
def update (b : Bullet) (dt halfW halfH left right top bottom : ℚ) :
    Bullet × List BulletEvent :=
  if b.isActive then
    let b := { b with timeToLive := b.timeToLive - dt }
    if b.timeToLive ≤ 0 then b.expire
    else
      let x := if b.posX + halfW < left then right + halfW
        else if right < b.posX - halfW then left - halfW else b.posX
      let y := if b.posY + halfH < top then bottom + halfH
        else if bottom < b.posY - halfH then top - halfH else b.posY
      ({ b with posX := x, posY := y }, [])
  else (b, [])

end Bullet

/-! ## AsteroidManager (`src/systems/AsteroidManager.ts`)

The JS `Set<Asteroid>` of active asteroids is modelled as a list (the source
only ever adds pool instances or fresh constructions, which are never already
members, so `Set.add` always grows); object identity is modelled by the `id`
field, which is unique among live instances.  `ObjectPool` arrays are
modelled with the top of the stack (the last `push`) at the head of the
list.  The static `Asteroid.nextId` counter is threaded through the manager
as `nextId`. -/

structure AsteroidManager : Type where
  activeAsteroids : List Asteroid
  pools : AsteroidSize → List Asteroid
  maxActive : ℕ
  nextId : ℕ

namespace AsteroidManager

/-- Source `AsteroidManager.getAsteroid(size, x, y, velocity?, angularVelocity?)`:
`null` at capacity, otherwise a pooled (or newly constructed) asteroid is
initialised and added to the active set. -/
def getAsteroid (m : AsteroidManager) (size : AsteroidSize) (x y : ℚ)
    (velocity : Option (ℚ × ℚ)) (angularVel : Option ℚ)
    (cosq sinq : ℚ → ℚ) (piQ : ℚ) (rng : ℕ → ℚ) :
    AsteroidManager × Option Asteroid :=
  if m.maxActive ≤ m.activeAsteroids.length then (m, none)
  else
    let (ast, rest, nextId) := match m.pools size with
      | [] => (Asteroid.construct m.nextId 0 0 size, [], m.nextId + 1)
      | a :: as_ => (a, as_, m.nextId)
    let ast := ast.initAsteroid x y velocity angularVel cosq sinq piQ rng
    ({ m with pools := fun s => if s = size then rest else m.pools s,
              nextId := nextId,
              activeAsteroids := m.activeAsteroids ++ [ast] },
     some ast)

/-- Source `AsteroidManager.returnAsteroid(asteroid)`: a no-op for asteroids not in
the active set; otherwise removes it and returns it to its size's pool (the
pool's reset function is `Asteroid.reset`). -/
def returnAsteroid (m : AsteroidManager) (a : Asteroid) : AsteroidManager :=
  if m.activeAsteroids.any (fun b => b.id == a.id) then
    { m with
      activeAsteroids := m.activeAsteroids.filter (fun b => !(b.id == a.id)),
      pools := fun s => if s = a.size then a.reset :: m.pools a.size else m.pools s }
  else m

/-- Source `AsteroidManager.destroyAsteroid(asteroid, causeSplit)`: empty result for
unmanaged asteroids; otherwise computes the split data (advancing the static
id counter), removes the asteroid and returns the data. -/
def destroyAsteroid (m : AsteroidManager) (a : Asteroid) (causeSplit : Bool)
    (cosq sinq sqrtq : ℚ → ℚ) (piQ : ℚ) (rng : ℕ → ℚ) :
    AsteroidManager × List AsteroidData :=
  if m.activeAsteroids.any (fun b => b.id == a.id) then
    let splitData := if causeSplit then a.split cosq sinq sqrtq piQ rng m.nextId else []
    let m := { m with nextId := m.nextId + splitData.length }
    (m.returnAsteroid a, splitData)
  else (m, [])

/-- The fragment loop of `AsteroidManager.createSplitAsteroids`: one
`getAsteroid` per fragment, with its precomputed velocity and angular
velocity (so no random draws occur), collecting the non-null results. -/
def createSplitsLoop (cosq sinq : ℚ → ℚ) (piQ : ℚ)
    (acc : AsteroidManager × List Asteroid) :
    List AsteroidData → AsteroidManager × List Asteroid
  | [] => acc
  | d :: ds =>
      let r := acc.1.getAsteroid d.size d.posX d.posY (some (d.velX, d.velY))
        (some d.angularVelocity) cosq sinq piQ (fun _ => 0)
      match r.2 with
      | some a => createSplitsLoop cosq sinq piQ (r.1, acc.2 ++ [a]) ds
      | none => createSplitsLoop cosq sinq piQ (r.1, acc.2) ds

/-- Source `AsteroidManager.createSplitAsteroids(splitData)`. -/
def createSplitAsteroids (m : AsteroidManager) (splitData : List AsteroidData)
    (cosq sinq : ℚ → ℚ) (piQ : ℚ) : AsteroidManager × List Asteroid :=
  createSplitsLoop cosq sinq piQ (m, []) splitData

/-- Source `AsteroidManager.damageAsteroid(asteroid, damage)` (the asteroid argument
is denoted by its `id`): `false` for unmanaged asteroids; otherwise applies
`takeDamage` in place and, on destruction, runs `destroyAsteroid` followed by
`createSplitAsteroids`. -/
def damageAsteroid (m : AsteroidManager) (id : ℕ) (damage : ℚ)
    (cosq sinq sqrtq : ℚ → ℚ) (piQ : ℚ) (rng : ℕ → ℚ) :
    AsteroidManager × Bool :=
  match m.activeAsteroids.find? (fun b => b.id == id) with
  | none => (m, false)
  | some a =>
      let r := a.takeDamage damage
      let m := { m with activeAsteroids :=
        m.activeAsteroids.map (fun b => if b.id == id then r.1 else b) }
      if r.2 then
        let r2 := m.destroyAsteroid r.1 true cosq sinq sqrtq piQ rng
        ((r2.1.createSplitAsteroids r2.2 cosq sinq piQ).1, true)
      else (m, false)

/-- Source `AsteroidManager.update(time, delta)`: calls each active asteroid's
per-tick update (screen wrap); the active set itself is not modified. -/
def update (m : AsteroidManager) (halfW halfH left right top bottom : ℚ) :
    AsteroidManager :=
  { m with activeAsteroids :=
      m.activeAsteroids.map (fun a => a.update halfW halfH left right top bottom) }

/-- Source `AsteroidManager.clearAllAsteroids()`: returns every active asteroid to
its pool. -/
def clearAllAsteroids (m : AsteroidManager) : AsteroidManager :=
  m.activeAsteroids.foldl (fun acc a => acc.returnAsteroid a) m

/-- Source `AsteroidManager.isAtCapacity()`. -/
def isAtCapacity (m : AsteroidManager) : Bool :=
  m.maxActive ≤ m.activeAsteroids.length

end AsteroidManager

/-! ## BulletManager (`src/systems/BulletManager.ts`) -/

structure BulletManager : Type where
  activeBullets : List Bullet
  pool : List Bullet
  maxActiveBullets : ℕ
  nextBulletId : ℕ

namespace BulletManager

/-- Source `BulletManager.fireBullet(x, y, angle, config)`: `getBullet` returns
`null` at capacity, otherwise takes a pooled (or newly constructed) bullet,
which `fire` then initialises in place; the fired bullet is the new member of
the active set. -/
def fireBullet (m : BulletManager) (x y angle : ℚ) (config : WeaponConfig)
    (cosq sinq : ℚ → ℚ) : BulletManager × Option Bullet :=
  if m.maxActiveBullets ≤ m.activeBullets.length then (m, none)
  else
    let (b, rest) := match m.pool with
      | [] => (Bullet.construct (-100) (-100), [])
      | b :: bs => (b, bs)
    let r := b.fire x y angle config m.nextBulletId cosq sinq
    ({ m with pool := rest,
              nextBulletId := m.nextBulletId + 1,
              activeBullets := m.activeBullets ++ [r.1] },
     some r.1)

/-- Source `BulletManager.returnBullet(bullet)`: a no-op for bullets not in the
active set; otherwise removes it and returns it to the pool (the pool's reset
function is `Bullet.deactivate`). -/
def returnBullet (m : BulletManager) (b : Bullet) : BulletManager :=
  if m.activeBullets.any (fun c => c.bulletId == b.bulletId) then
    { m with
      activeBullets := m.activeBullets.filter (fun c => !(c.bulletId == b.bulletId)),
      pool := b.deactivate :: m.pool }
  else m

/-- Source `BulletManager.update(dt)`: updates every still-active bullet, then a
cleanup pass collects the bullets that are inactive (whether they were
already inactive when encountered or expired during this pass) and returns
each to the pool.  (In the source a bullet expiring mid-pass is also removed
by the synchronous `bullet-expired` handler calling `returnBullet`; since
`returnBullet` is membership-guarded the net effect on the active set and
pool is the same as this two-phase description.) -/
def update (m : BulletManager) (dt halfW halfH left right top bottom : ℚ) :
    BulletManager :=
  let updated := m.activeBullets.map
    (fun b => if b.isActive then (b.update dt halfW halfH left right top bottom).1 else b)
  let inactive := updated.filter (fun b => !b.isActive)
  { m with activeBullets := updated.filter (fun b => b.isActive),
           pool := (inactive.map Bullet.deactivate).reverse ++ m.pool }

/-- Source `BulletManager.clearAllBullets()`: returns every bullet in the active set
to the pool and clears the set. -/
def clearAllBullets (m : BulletManager) : BulletManager :=
  { m with activeBullets := [],
           pool := (m.activeBullets.map Bullet.deactivate).reverse ++ m.pool }

end BulletManager

/-! ## ShardManager (`src/systems/WeaponSystem.ts`, second class in the file) -/

structure ShardManager : Type where
  activeShards : List Shard
  pool : List Shard
  maxActiveShards : ℕ
  nextShardId : ℕ
  config : ShardConfig

namespace ShardManager

/-- Source `ShardManager.spawnShard(x, y)`: `null` once `activeShards.size` has
reached `maxActiveShards`; otherwise a pooled (or newly constructed) shard is
spawned and added to the active set.  `rng 0` is the spawn scatter-angle
draw. -/
def spawnShard (m : ShardManager) (x y : ℚ) (cosq sinq : ℚ → ℚ) (piQ : ℚ)
    (rng : ℕ → ℚ) : ShardManager × Option Shard :=
  if m.maxActiveShards ≤ m.activeShards.length then (m, none)
  else
    let (s, rest) := match m.pool with
      | [] => (Shard.construct (-100) (-100), [])
      | s :: ss => (s, ss)
    let r := s.spawn x y m.config m.nextShardId cosq sinq piQ rng
    ({ m with pool := rest,
              nextShardId := m.nextShardId + 1,
              activeShards := m.activeShards ++ [r.1] },
     some r.1)

/-- The spawn loop of `ShardManager.spawnShardsFromAsteroid`, one iteration
per index; iteration `i` computes a random offset around `(x, y)` and calls
`spawnShard`, appending the result when the spawn succeeds.  `rng`
consumption for iteration `i`: `rng (4*i)` the angular jitter, `rng (4*i+1)`
and `rng (4*i+2)` the two offset-radius draws, and `rng (4*i+3)` the spawned
shard's scatter angle. -/
def spawnShardsLoop (shardCount : ℕ) (x y : ℚ) (cosq sinq : ℚ → ℚ)
    (piQ : ℚ) (rng : ℕ → ℚ) (acc : ShardManager × List Shard) :
    List ℕ → ShardManager × List Shard
  | [] => acc
  | i :: is =>
      let offsetRadius : ℚ := 20
      let angle := piQ * 2 * (i : ℚ) / (shardCount : ℚ) + rng (4 * i) * (1 / 2)
      let offsetX := x + cosq angle * (rng (4 * i + 1) * offsetRadius)
      let offsetY := y + sinq angle * (rng (4 * i + 2) * offsetRadius)
      let r := acc.1.spawnShard offsetX offsetY cosq sinq piQ
        (fun _ => rng (4 * i + 3))
      match r.2 with
      | some s => spawnShardsLoop shardCount x y cosq sinq piQ rng (r.1, acc.2 ++ [s]) is
      | none => spawnShardsLoop shardCount x y cosq sinq piQ rng (r.1, acc.2) is

/-- Source `ShardManager.spawnShardsFromAsteroid(asteroidSize, x, y)`: attempts
`baseYield[asteroidSize]` spawns around `(x, y)` via `spawnShardsLoop`,
collecting those that succeed.  No wave number is consulted anywhere in this
code path. -/
def spawnShardsFromAsteroid (m : ShardManager) (asteroidSize : AsteroidSize)
    (x y : ℚ) (cosq sinq : ℚ → ℚ) (piQ : ℚ) (rng : ℕ → ℚ) :
    ShardManager × List Shard :=
  let shardCount := m.config.baseYield asteroidSize
  spawnShardsLoop shardCount x y cosq sinq piQ rng (m, []) (List.range shardCount)

/-- Source `ShardManager.returnShard(shard)`: a no-op for shards not in the active
set; otherwise removes it and returns it to the pool (the pool's reset
function is `Shard.deactivate`). -/
def returnShard (m : ShardManager) (s : Shard) : ShardManager :=
  if m.activeShards.any (fun t => t.shardId == s.shardId) then
    { m with
      activeShards := m.activeShards.filter (fun t => !(t.shardId == s.shardId)),
      pool := s.deactivate :: m.pool }
  else m

/-- Source `ShardManager.update(dt, playerPosition)`: updates every still-active
shard with the configured magnet parameters; inactive shards encountered are
skipped and kept.  A shard that expires during its update fires
`shard-expired`, whose synchronous handler `onShardExpired` calls
`returnShard`, removing it from the active set and pushing it (reset by
`Shard.deactivate`) onto the pool. -/
def update (m : ShardManager) (sqrtq : ℚ → ℚ) (dt playerX playerY : ℚ) :
    ShardManager :=
  let results := m.activeShards.map
    (fun s => if s.isActive then
        s.update sqrtq dt (some (playerX, playerY))
          (some m.config.magnetRadius) (some m.config.magnetForce)
      else (s, []))
  let expired := results.filter (fun r => r.2.contains ShardEvent.expired)
  { m with
    activeShards := (results.filter (fun r => !r.2.contains ShardEvent.expired)).map (·.1),
    pool := ((expired.map (·.1)).map Shard.deactivate).reverse ++ m.pool }

/-- Source `ShardManager.checkCollisions(playerShip)`: every active shard within
`collectRadius` of the player is collected (`Shard.collect`), and the
synchronous `shard-collected` handler returns it to the pool. -/
def checkCollisions (m : ShardManager) (sqrtq : ℚ → ℚ)
    (playerX playerY : ℚ) : ShardManager :=
  let isCollected := fun (s : Shard) =>
    s.isActive && MathUtils.distance sqrtq playerX playerY s.posX s.posY ≤ m.config.collectRadius
  let collected := m.activeShards.filter isCollected
  { m with
    activeShards := m.activeShards.filter (fun s => !isCollected s),
    pool := ((collected.map (fun s => (s.collect).1)).map Shard.deactivate).reverse ++ m.pool }

/-- Source `ShardManager.clearAllShards()`: returns every active shard to the
pool. -/
def clearAllShards (m : ShardManager) : ShardManager :=
  m.activeShards.foldl (fun acc s => acc.returnShard s) m

end ShardManager

/-! ## AsteroidSpawner (`src/systems/AsteroidSpawner.ts`)

The spawner's screen bounds and its `safeSpawnRadius` field are passed as
parameters; the active asteroid positions (obtained in the source from
`asteroidManager.getAllActiveAsteroids()`) are passed as a list. -/

namespace AsteroidSpawner

/-- Source `AsteroidSpawner.isPositionOccupied(x, y, checkRadius)`: some active
asteroid lies strictly within `checkRadius`. -/
def isPositionOccupied (sqrtq : ℚ → ℚ) (x y checkRadius : ℚ)
    (asteroids : List (ℚ × ℚ)) : Bool :=
  asteroids.any (fun a => MathUtils.distance sqrtq x y a.1 a.2 < checkRadius)

/-- The candidate point of `findEdgeSpawnPosition` before the player-distance
check: edge `0`/`1`/`2`/`3` is top/right/bottom/left, offset outward by the
margin, with `r` the coordinate draw along the edge. -/
def edgeBasePoint (screenW screenH margin : ℚ) (edge : ℤ) (r : ℚ) :
    Option (ℚ × ℚ) :=
  if edge = 0 then some (MathUtils.randomFloat r 0 screenW, -margin)
  else if edge = 1 then some (screenW + margin, MathUtils.randomFloat r 0 screenH)
  else if edge = 2 then some (MathUtils.randomFloat r 0 screenW, screenH + margin)
  else if edge = 3 then some (-margin, MathUtils.randomFloat r 0 screenH)
  else none

/-- The opposite-edge flip applied by `findEdgeSpawnPosition` when the base
point is too close to the player. -/
def edgeFlipPoint (screenW screenH margin : ℚ) (edge : ℤ) (p : ℚ × ℚ) :
    ℚ × ℚ :=
  if edge = 0 then (p.1, screenH + margin)
  else if edge = 1 then (-margin, p.2)
  else if edge = 2 then (p.1, -margin)
  else (screenW + margin, p.2)

/-- Source `AsteroidSpawner.findEdgeSpawnPosition(playerPos)`: a random edge point
offset outward by the margin `50`, flipped to the opposite edge if it lies
strictly within the spawner's `safeSpawnRadius` field of the player.  `rng 0`
draws the edge, `rng 1` the coordinate along it. -/
def findEdgeSpawnPosition (sqrtq : ℚ → ℚ) (screenW screenH safeRadius : ℚ)
    (playerX playerY : ℚ) (rng : ℕ → ℚ) : Option (ℚ × ℚ) :=
  let margin : ℚ := 50
  let edge := MathUtils.randomInt (rng 0) 0 3
  match edgeBasePoint screenW screenH margin edge (rng 1) with
  | none => none
  | some p =>
      if MathUtils.distance sqrtq p.1 p.2 playerX playerY < safeRadius then
        some (edgeFlipPoint screenW screenH margin edge p)
      else some p

/-- One rejection-sampling attempt of `findSafeSpawnPosition`: attempt `i`
draws `rng (2*i)` and `rng (2*i+1)` for the candidate point, accepted when it
is at least `avoidRadius` from the player and not within `50` of any active
asteroid. -/
def safeSpawnAttempt (sqrtq : ℚ → ℚ) (screenW screenH avoidRadius : ℚ)
    (playerX playerY : ℚ) (asteroids : List (ℚ × ℚ)) (rng : ℕ → ℚ)
    (i : ℕ) : Option (ℚ × ℚ) :=
  let x := MathUtils.randomFloat (rng (2 * i)) 0 screenW
  let y := MathUtils.randomFloat (rng (2 * i + 1)) 0 screenH
  if avoidRadius ≤ MathUtils.distance sqrtq x y playerX playerY then
    if isPositionOccupied sqrtq x y 50 asteroids then none else some (x, y)
  else none

/-- Source `AsteroidSpawner.findSafeSpawnPosition(playerPos, avoidRadius)`: the
first of at most `20` accepted rejection-sampling attempts, falling back to
`findEdgeSpawnPosition` (whose draws are `rng 40` and `rng 41`) when every
attempt is rejected. -/
def findSafeSpawnPosition (sqrtq : ℚ → ℚ) (screenW screenH safeRadius avoidRadius : ℚ)
    (playerX playerY : ℚ) (asteroids : List (ℚ × ℚ)) (rng : ℕ → ℚ) :
    Option (ℚ × ℚ) :=
  match (List.range 20).findSome?
      (safeSpawnAttempt sqrtq screenW screenH avoidRadius playerX playerY asteroids rng) with
  | some p => some p
  | none => findEdgeSpawnPosition sqrtq screenW screenH safeRadius playerX playerY
      (fun n => rng (40 + n))

/-- Modelled from the spec (claim C5's reading of the fallback): the same
edge-spawn computation, but flipping to the opposite edge whenever the edge
position is still within the `avoidRadius` **argument** of the player, rather
than within the spawner's `safeSpawnRadius` field.  Used only to compare the
claim's wording against `findEdgeSpawnPosition`. -/
def edgeSpawnPerClaim (sqrtq : ℚ → ℚ) (screenW screenH avoidRadius : ℚ)
    (playerX playerY : ℚ) (rng : ℕ → ℚ) : Option (ℚ × ℚ) :=
  let margin : ℚ := 50
  let edge := MathUtils.randomInt (rng 0) 0 3
  match edgeBasePoint screenW screenH margin edge (rng 1) with
  | none => none
  | some p =>
      if MathUtils.distance sqrtq p.1 p.2 playerX playerY < avoidRadius then
        some (edgeFlipPoint screenW screenH margin edge p)
      else some p

end AsteroidSpawner

/-! ## Operation alphabets for the capacity invariant

One constructor per public operation of each manager that can touch its
active set, so that "every sequence of operations" ranges over arbitrary
interleavings. -/

/-- The active-set-mutating operations of `AsteroidManager`. -/
inductive AsteroidOp : Type
  | spawn (size : AsteroidSize) (x y : ℚ) (velocity : Option (ℚ × ℚ))
      (angularVel : Option ℚ) (rng : ℕ → ℚ)
  | ret (a : Asteroid)
  | destroy (a : Asteroid) (causeSplit : Bool) (rng : ℕ → ℚ)
  | createSplits (ds : List AsteroidData)
  | damage (id : ℕ) (amount : ℚ) (rng : ℕ → ℚ)
  | tick (halfW halfH left right top bottom : ℚ)
  | clear

/-- Interpretation of one `AsteroidOp` (return values discarded). -/
def applyAsteroidOp (cosq sinq sqrtq : ℚ → ℚ) (piQ : ℚ)
    (m : AsteroidManager) : AsteroidOp → AsteroidManager
  | .spawn size x y v av rng => (m.getAsteroid size x y v av cosq sinq piQ rng).1
  | .ret a => m.returnAsteroid a
  | .destroy a c rng => (m.destroyAsteroid a c cosq sinq sqrtq piQ rng).1
  | .createSplits ds => (m.createSplitAsteroids ds cosq sinq piQ).1
  | .damage id amount rng => (m.damageAsteroid id amount cosq sinq sqrtq piQ rng).1
  | .tick hw hh l r t b => m.update hw hh l r t b
  | .clear => m.clearAllAsteroids

/-- Runs a sequence of `AsteroidOp`s. -/
def runAsteroidOps (cosq sinq sqrtq : ℚ → ℚ) (piQ : ℚ)
    (m : AsteroidManager) (ops : List AsteroidOp) : AsteroidManager :=
  ops.foldl (applyAsteroidOp cosq sinq sqrtq piQ) m

/-- The active-set-mutating operations of `BulletManager`. -/
inductive BulletOp : Type
  | fire (x y angle : ℚ) (config : WeaponConfig)
  | ret (b : Bullet)
  | tick (dt halfW halfH left right top bottom : ℚ)
  | clear

/-- Interpretation of one `BulletOp` (return values discarded). -/
def applyBulletOp (cosq sinq : ℚ → ℚ) (m : BulletManager) :
    BulletOp → BulletManager
  | .fire x y angle config => (m.fireBullet x y angle config cosq sinq).1
  | .ret b => m.returnBullet b
  | .tick dt hw hh l r t b => m.update dt hw hh l r t b
  | .clear => m.clearAllBullets

/-- Runs a sequence of `BulletOp`s. -/
def runBulletOps (cosq sinq : ℚ → ℚ) (m : BulletManager)
    (ops : List BulletOp) : BulletManager :=
  ops.foldl (applyBulletOp cosq sinq) m

/-- The active-set-mutating operations of `ShardManager`. -/
inductive ShardOp : Type
  | spawnOne (x y : ℚ) (rng : ℕ → ℚ)
  | spawnFrom (size : AsteroidSize) (x y : ℚ) (rng : ℕ → ℚ)
  | ret (s : Shard)
  | tick (dt playerX playerY : ℚ)
  | collisions (playerX playerY : ℚ)
  | clear

/-- Interpretation of one `ShardOp` (return values discarded). -/
def applyShardOp (cosq sinq sqrtq : ℚ → ℚ) (piQ : ℚ) (m : ShardManager) :
    ShardOp → ShardManager
  | .spawnOne x y rng => (m.spawnShard x y cosq sinq piQ rng).1
  | .spawnFrom size x y rng => (m.spawnShardsFromAsteroid size x y cosq sinq piQ rng).1
  | .ret s => m.returnShard s
  | .tick dt px py => m.update sqrtq dt px py
  | .collisions px py => m.checkCollisions sqrtq px py
  | .clear => m.clearAllShards

/-- Runs a sequence of `ShardOp`s. -/
def runShardOps (cosq sinq sqrtq : ℚ → ℚ) (piQ : ℚ) (m : ShardManager)
    (ops : List ShardOp) : ShardManager :=
  ops.foldl (applyShardOp cosq sinq sqrtq piQ) m

/-- The capacity invariant of `AsteroidManager`
(`activeAsteroids.size ≤ maxActiveCount`). -/
def AsteroidManager.capInv (m : AsteroidManager) : Prop :=
  m.activeAsteroids.length ≤ m.maxActive

/-- The capacity invariant of `BulletManager`
(`activeBullets.size ≤ maxActiveBullets`). -/
def BulletManager.capInv (m : BulletManager) : Prop :=
  m.activeBullets.length ≤ m.maxActiveBullets

/-- The capacity invariant of `ShardManager`
(`activeShards.size ≤ maxActiveShards`). -/
def ShardManager.capInv (m : ShardManager) : Prop :=
  m.activeShards.length ≤ m.maxActiveShards

instance (m : AsteroidManager) : Decidable m.capInv := by
  unfold AsteroidManager.capInv; infer_instance

instance (m : BulletManager) : Decidable m.capInv := by
  unfold BulletManager.capInv; infer_instance

instance (m : ShardManager) : Decidable m.capInv := by
  unfold ShardManager.capInv; infer_instance

/-- Modelled from the spec (§4.3, claim C6's wording): the attraction
velocity — "a unit vector toward the player scaled by
`magnetForce × (1 − distance/magnetRadius)`". -/
def specAttractionVelocity (sqrtq : ℚ → ℚ)
    (sx sy px py magnetRadius magnetForce : ℚ) : ℚ × ℚ :=
  let d := MathUtils.distance sqrtq sx sy px py
  let u := MathUtils.normalize sqrtq (px - sx) (py - sy)
  (u.1 * (magnetForce * (1 - d / magnetRadius)),
   u.2 * (magnetForce * (1 - d / magnetRadius)))

/-- JavaScript `Math.round` (round half up). -/
def jsRound (x : ℚ) : ℤ := ⌊x + 1 / 2⌋

/-- Modelled from the spec (§4.6 scaling with yield rate `0.05`, claim C4's
wording): the shard yield at a wave, `round(baseYield[size] × 1.05^(wave−1))`.
No such computation exists in the source; this definition exists only to
compare the claim's wording with `ShardManager.spawnShardsFromAsteroid`. -/
def specYieldAtWave (size : AsteroidSize) (wave : ℕ) : ℤ :=
  jsRound ((SHARD_CONFIG.baseYield size : ℚ) * (21 / 20) ^ (wave - 1))

/-! # Claim theorems -/

/-- Claim C3: For every asteroid and damage amount, `takeDamage` is a no-op
returning `false` when the asteroid is inactive; otherwise it decrements the
health, floors it at `0`, and returns `true` iff the health reached `0`.  In
particular a LARGE asteroid spawned with health `100` survives four
applications of `takeDamage(20)` (health `20`), and the fifth returns `true`
with health `0`. -/
theorem claim_c3_takeDamage (a : Asteroid) (damage : ℚ) :
    (a.isActive = false → a.takeDamage damage = (a, false)) ∧
    (a.isActive = true →
      (a.takeDamage damage).1.currentHealth = max (a.currentHealth - damage) 0 ∧
      ((a.takeDamage damage).2 = true ↔ (a.takeDamage damage).1.currentHealth = 0)) ∧
    (((((Asteroid.construct 1 0 0 .large).takeDamage 20).1.takeDamage 20).1.takeDamage
          20).1.takeDamage 20).2 = false ∧
    (((((Asteroid.construct 1 0 0 .large).takeDamage 20).1.takeDamage 20).1.takeDamage
          20).1.takeDamage 20).1.currentHealth = 20 ∧
    ((((((Asteroid.construct 1 0 0 .large).takeDamage 20).1.takeDamage 20).1.takeDamage
          20).1.takeDamage 20).1.takeDamage 20).2 = true ∧
    ((((((Asteroid.construct 1 0 0 .large).takeDamage 20).1.takeDamage 20).1.takeDamage
          20).1.takeDamage 20).1.takeDamage 20).1.currentHealth = 0 := by
  refine ⟨fun h => ?_, fun h => ?_, ?_, ?_, ?_, ?_⟩
  · simp [Asteroid.takeDamage, h]
  · by_cases hle : a.currentHealth - damage ≤ 0
    · simp only [Asteroid.takeDamage, h, if_true, hle]
      exact ⟨(max_eq_right hle).symm, by simp⟩
    · simp only [Asteroid.takeDamage, h, if_true, hle, if_false]
      push_neg at hle
      refine ⟨(max_eq_left hle.le).symm, ?_⟩
      simp only [Bool.false_eq_true, false_iff]
      exact fun hc => absurd hc (ne_of_gt hle)
  all_goals norm_num [Asteroid.takeDamage, Asteroid.construct, ASTEROID_CONFIGS,
    Asteroid.damageFrame]

/-- Witness for C3: the active-case characterisation evaluated on a concrete
LARGE asteroid taking `20` damage. -/
theorem claim_c3_witness :
    ((Asteroid.construct 1 0 0 .large).isActive = true) ∧
    ((Asteroid.construct 1 0 0 .large).takeDamage 20).1.currentHealth =
      max ((Asteroid.construct 1 0 0 .large).currentHealth - 20) 0 :=
  ⟨rfl, ((claim_c3_takeDamage (Asteroid.construct 1 0 0 .large) 20).2.1 rfl).1⟩

/-- Counterexample for C9: `reset()` leaves the position unchanged — a LARGE
asteroid resting at `(100, 100)`, inside an `800 × 600` visible playfield,
still sits at `(100, 100)` after `reset()`, so its position is **not** moved
off the visible playfield as the claim states. -/
theorem claim_c9_counterexample :
    ((Asteroid.construct 1 100 100 .large).reset).posX = 100 ∧
    ((Asteroid.construct 1 100 100 .large).reset).posY = 100 ∧
    ((0 : ℚ) ≤ 100 ∧ (100 : ℚ) ≤ 800 ∧ (0 : ℚ) ≤ 100 ∧ (100 : ℚ) ≤ 600) :=
  ⟨rfl, rfl, by norm_num⟩

/-- Claim C9 amended: `reset()` establishes the POOLED state: deactivated,
velocity and angular velocity zeroed, health restored to `maxHealth` — but
the position is left unchanged (the source never moves a reset asteroid off
the playfield). -/
theorem claim_c9_reset (a : Asteroid) :
    (a.reset).isActive = false ∧
    (a.reset).velX = 0 ∧ (a.reset).velY = 0 ∧
    (a.reset).angularVelocity = 0 ∧
    (a.reset).currentHealth = a.maxHealth ∧
    (a.reset).posX = a.posX ∧ (a.reset).posY = a.posY :=
  ⟨rfl, rfl, rfl, rfl, rfl, rfl, rfl⟩

/-- Claim C10: `normalize(x, y)` is total and returns the zero vector whenever
the input has zero magnitude (in particular `normalize(0, 0) = (0, 0)`,
given that the square root of `0` is `0`); consequently a shard located
exactly at the player's position receives a well-defined zero-direction
attraction, and its blended velocity is just `0.3` times its current
velocity. -/
theorem claim_c10_normalize (sqrtq : ℚ → ℚ) (h0 : sqrtq 0 = 0) :
    (∀ x y : ℚ, MathUtils.magnitude sqrtq x y = 0 →
      MathUtils.normalize sqrtq x y = (0, 0)) ∧
    MathUtils.normalize sqrtq 0 0 = (0, 0) ∧
    (∀ (s : Shard) (magnetRadius magnetForce : ℚ), 0 ≤ magnetRadius →
      (s.handleMagneticAttraction sqrtq s.posX s.posY magnetRadius magnetForce).velX
          = s.velX * (3 / 10) ∧
      (s.handleMagneticAttraction sqrtq s.posX s.posY magnetRadius magnetForce).velY
          = s.velY * (3 / 10)) := by
  have hnorm : ∀ x y : ℚ, MathUtils.magnitude sqrtq x y = 0 →
      MathUtils.normalize sqrtq x y = (0, 0) := by
    intro x y h
    simp [MathUtils.normalize, h]
  have hzero : MathUtils.magnitude sqrtq 0 0 = 0 := by
    simp [MathUtils.magnitude, h0]
  refine ⟨hnorm, hnorm 0 0 hzero, ?_⟩
  intro s magnetRadius magnetForce hR
  have hdist : MathUtils.distance sqrtq s.posX s.posY s.posX s.posY = 0 := by
    simp [MathUtils.distance, MathUtils.magnitude, h0]
  have hveczero : MathUtils.normalize sqrtq (s.posX - s.posX) (s.posY - s.posY) = (0, 0) := by
    simp [MathUtils.normalize, MathUtils.magnitude, h0]
  simp only [Shard.handleMagneticAttraction, hdist, hveczero]
  rw [if_pos hR]
  constructor <;> · simp only []; ring_nf

/-- Claim C1: For every active LARGE or MEDIUM asteroid, `split()` returns
between `2` and `3` fragments (the configured `[minSplits, maxSplits]` for
that size), each of the parent's successor size (LARGE→MEDIUM,
MEDIUM→SMALL) with `health = maxHealth =` the successor size's configured
full health; for an inactive asteroid or a SMALL one, `split()` returns the
empty array.  `rng 0` is the split-count draw, assumed in `[0, 1)` as
`Math.random()` guarantees. -/
theorem claim_c1_split (a : Asteroid) (cosq sinq sqrtq : ℚ → ℚ) (piQ : ℚ)
    (rng : ℕ → ℚ) (nextId : ℕ) (hr0 : 0 ≤ rng 0) (hr1 : rng 0 < 1) :
    (a.isActive = true → a.size ≠ AsteroidSize.small →
      ((a.split cosq sinq sqrtq piQ rng nextId).length = 2 ∨
        (a.split cosq sinq sqrtq piQ rng nextId).length = 3) ∧
      (∀ d ∈ a.split cosq sinq sqrtq piQ rng nextId,
        d.size = a.getNextSmallerSize ∧
        d.health = (ASTEROID_CONFIGS a.getNextSmallerSize).health ∧
        d.maxHealth = d.health) ∧
      (a.size = AsteroidSize.large → a.getNextSmallerSize = AsteroidSize.medium) ∧
      (a.size = AsteroidSize.medium → a.getNextSmallerSize = AsteroidSize.small)) ∧
    (a.isActive = false ∨ a.size = AsteroidSize.small →
      a.split cosq sinq sqrtq piQ rng nextId = []) := by
  constructor
  · intro hact hsize
    have hcond : (!a.isActive || a.size = AsteroidSize.small) = false := by
      simp [hact, hsize]
    have hmin : ∀ sz, sz ≠ AsteroidSize.small → (ASTEROID_CONFIGS sz).splitMin = 2 := by
      intro sz h; cases sz <;> simp_all [ASTEROID_CONFIGS]
    have hmax : ∀ sz, sz ≠ AsteroidSize.small → (ASTEROID_CONFIGS sz).splitMax = 3 := by
      intro sz h; cases sz <;> simp_all [ASTEROID_CONFIGS]
    have hfloor0 : (0 : ℤ) ≤ ⌊rng 0 * 2⌋ := Int.floor_nonneg.mpr (by positivity)
    have hfloor2 : ⌊rng 0 * 2⌋ < 2 := by
      rw [show (2 : ℤ) = ((2 : ℤ) : ℤ) from rfl]
      exact Int.floor_lt.mpr (by push_cast; linarith)
    have hcount : (MathUtils.randomInt (rng 0) (ASTEROID_CONFIGS a.size).splitMin
        (ASTEROID_CONFIGS a.size).splitMax).toNat = 2 ∨
        (MathUtils.randomInt (rng 0) (ASTEROID_CONFIGS a.size).splitMin
          (ASTEROID_CONFIGS a.size).splitMax).toNat = 3 := by
      rw [MathUtils.randomInt, hmin _ hsize, hmax _ hsize]
      norm_num
      omega
    refine ⟨?_, ?_, ?_, ?_⟩
    · simpa only [Asteroid.split, hcond, Bool.false_eq_true, if_false,
        List.length_map, List.length_range] using hcount
    · intro d hd
      simp only [Asteroid.split, hcond, Bool.false_eq_true, if_false,
        List.mem_map, List.mem_range] at hd
      obtain ⟨i, _, rfl⟩ := hd
      exact ⟨rfl, rfl, rfl⟩
    · intro h; simp [Asteroid.getNextSmallerSize, h]
    · intro h; simp [Asteroid.getNextSmallerSize, h]
  · intro h
    rcases h with h | h
    · simp [Asteroid.split, h]
    · simp [Asteroid.split, h]

/-- Witness for C1: an initialised LARGE asteroid with the constant draw
`rng = fun _ => 0` splits into exactly `2` fragments. -/
theorem claim_c1_witness :
    (((Asteroid.construct 7 0 0 .large).split (fun _ => 1) (fun _ => 0) (fun _ => 0) 3
        (fun _ => 0) 8).length = 2 ∨
      ((Asteroid.construct 7 0 0 .large).split (fun _ => 1) (fun _ => 0) (fun _ => 0) 3
        (fun _ => 0) 8).length = 3) ∧
    (∀ d ∈ (Asteroid.construct 7 0 0 .large).split (fun _ => 1) (fun _ => 0) (fun _ => 0) 3
        (fun _ => 0) 8,
      d.size = (Asteroid.construct 7 0 0 .large).getNextSmallerSize ∧
      d.health = (ASTEROID_CONFIGS (Asteroid.construct 7 0 0 .large).getNextSmallerSize).health ∧
      d.maxHealth = d.health) := by
  have h := (claim_c1_split (Asteroid.construct 7 0 0 .large) (fun _ => 1) (fun _ => 0)
    (fun _ => 0) 3 (fun _ => 0) 8 le_rfl (by norm_num)).1 rfl (by simp [Asteroid.construct])
  exact ⟨h.1, h.2.1⟩

/-- State effect of `spawnShard`: at capacity nothing changes and `null` is
returned; below capacity the active count grows by one.  `maxActiveShards`
is never modified. -/
theorem ShardManager.spawnShard_state (m : ShardManager) (x y : ℚ)
    (cosq sinq : ℚ → ℚ) (piQ : ℚ) (rng : ℕ → ℚ) :
    ((m.spawnShard x y cosq sinq piQ rng).1.activeShards.length =
        if m.maxActiveShards ≤ m.activeShards.length then m.activeShards.length
        else m.activeShards.length + 1) ∧
    (m.spawnShard x y cosq sinq piQ rng).1.maxActiveShards = m.maxActiveShards ∧
    ((m.spawnShard x y cosq sinq piQ rng).2 = none ↔
        m.maxActiveShards ≤ m.activeShards.length) := by
  unfold ShardManager.spawnShard
  by_cases h : m.maxActiveShards ≤ m.activeShards.length
  · simp [h]
  · cases hp : m.pool with
    | nil => simp [h, hp]
    | cons s ss => simp [h, hp]

/-- Length bookkeeping for `spawnShardsLoop`: over any index list, the number
of spawned shards is the requested count capped by the remaining capacity,
and the active count grows by exactly that number. -/
theorem ShardManager.spawnShardsLoop_spec (shardCount : ℕ) (x y : ℚ)
    (cosq sinq : ℚ → ℚ) (piQ : ℚ) (rng : ℕ → ℚ) (is : List ℕ) :
    ∀ acc : ShardManager × List Shard,
    ((ShardManager.spawnShardsLoop shardCount x y cosq sinq piQ rng acc is).2.length =
        acc.2.length +
          min is.length (acc.1.maxActiveShards - acc.1.activeShards.length)) ∧
    ((ShardManager.spawnShardsLoop shardCount x y cosq sinq piQ rng acc is).1.activeShards.length =
        acc.1.activeShards.length +
          min is.length (acc.1.maxActiveShards - acc.1.activeShards.length)) ∧
    ((ShardManager.spawnShardsLoop shardCount x y cosq sinq piQ rng acc is).1.maxActiveShards =
        acc.1.maxActiveShards) := by
  induction is with
  | nil => intro acc; simp [ShardManager.spawnShardsLoop]
  | cons i is ih =>
      intro acc
      simp only [ShardManager.spawnShardsLoop]
      set ox := x + cosq (piQ * 2 * (i : ℚ) / (shardCount : ℚ) + rng (4 * i) * (1 / 2)) *
        (rng (4 * i + 1) * 20) with hox
      set oy := y + sinq (piQ * 2 * (i : ℚ) / (shardCount : ℚ) + rng (4 * i) * (1 / 2)) *
        (rng (4 * i + 2) * 20) with hoy
      set r := acc.1.spawnShard ox oy cosq sinq piQ (fun _ => rng (4 * i + 3)) with hr
      obtain ⟨hlen, hmax, hnone⟩ :=
        ShardManager.spawnShard_state acc.1 ox oy cosq sinq piQ (fun _ => rng (4 * i + 3))
      rw [← hr] at hlen hmax hnone
      by_cases hcap : acc.1.maxActiveShards ≤ acc.1.activeShards.length
      · rw [hnone.mpr hcap]
        obtain ⟨j1, j2, j3⟩ := ih (r.1, acc.2)
        rw [if_pos hcap] at hlen
        simp only at j1 j2 j3
        refine ⟨?_, ?_, ?_⟩
        · rw [j1, hlen, hmax]; omega
        · rw [j2, hlen, hmax]; omega
        · rw [j3]; exact hmax
      · obtain ⟨sNew, hsome⟩ : ∃ sNew, r.2 = some sNew := by
          cases hr2 : r.2 with
          | none => exact absurd (hnone.mp hr2) hcap
          | some sNew => exact ⟨sNew, rfl⟩
        rw [hsome]
        obtain ⟨j1, j2, j3⟩ := ih (r.1, acc.2 ++ [sNew])
        rw [if_neg hcap] at hlen
        simp only [List.length_append, List.length_singleton] at j1 j2 j3
        refine ⟨?_, ?_, ?_⟩
        · rw [j1, hlen, hmax]; simp only [List.length_cons]; omega
        · rw [j2, hlen, hmax]; simp only [List.length_cons]; omega
        · rw [j3]; exact hmax

/-- Source `randomInt(0, 3)` with a `Math.random()` draw in `[0, 1)` yields one of
the four edges. -/
theorem MathUtils.randomInt03 (r : ℚ) (h0 : 0 ≤ r) (h1 : r < 1) :
    MathUtils.randomInt r 0 3 = 0 ∨ MathUtils.randomInt r 0 3 = 1 ∨
    MathUtils.randomInt r 0 3 = 2 ∨ MathUtils.randomInt r 0 3 = 3 := by
  have hlo : (0 : ℤ) ≤ ⌊r * 4⌋ := Int.floor_nonneg.mpr (by positivity)
  have hhi : ⌊r * 4⌋ < 4 := by
    have : r * 4 < ((4 : ℤ) : ℚ) := by push_cast; linarith
    exact Int.floor_lt.mpr this
  have h4 : ((3 - 0 + 1 : ℤ) : ℚ) = 4 := by norm_num
  rw [MathUtils.randomInt, h4]
  omega

/-- Source `findEdgeSpawnPosition` always produces a point: the base edge point
exists for each of the four drawn edges, and the result is that point, flipped
to the opposite edge exactly when it lies strictly within the spawner's
`safeSpawnRadius` field of the player. -/
theorem AsteroidSpawner.findEdge_char (sqrtq : ℚ → ℚ)
    (screenW screenH safeRadius px py : ℚ) (rng : ℕ → ℚ)
    (h0 : 0 ≤ rng 0) (h1 : rng 0 < 1) :
    ∃ p, AsteroidSpawner.edgeBasePoint screenW screenH 50
        (MathUtils.randomInt (rng 0) 0 3) (rng 1) = some p ∧
      AsteroidSpawner.findEdgeSpawnPosition sqrtq screenW screenH safeRadius px py rng =
        some (if MathUtils.distance sqrtq p.1 p.2 px py < safeRadius
          then AsteroidSpawner.edgeFlipPoint screenW screenH 50
            (MathUtils.randomInt (rng 0) 0 3) p
          else p) := by
  have hbase : ∃ p, AsteroidSpawner.edgeBasePoint screenW screenH 50
      (MathUtils.randomInt (rng 0) 0 3) (rng 1) = some p := by
    rcases MathUtils.randomInt03 (rng 0) h0 h1 with h | h | h | h <;>
      simp [AsteroidSpawner.edgeBasePoint, h]
  obtain ⟨p, hp⟩ := hbase
  refine ⟨p, hp, ?_⟩
  simp only [AsteroidSpawner.findEdgeSpawnPosition, hp]
  split_ifs <;> rfl

/-- Claim C5 amended: `findSafeSpawnPosition` always returns a position
(never `null`): when some rejection-sampling attempt among the 20 is
accepted the first accepted sample — which is at least `avoidRadius` from
the player and not strictly within `50` of any active asteroid — is
returned, and when all are rejected it falls back to
`findEdgeSpawnPosition`, whose edge point is flipped to the opposite edge
exactly when it lies strictly within the spawner's `safeSpawnRadius` field
of the player (not within the `avoidRadius` argument). -/
theorem claim_c5_spawnSearch (sqrtq : ℚ → ℚ)
    (screenW screenH safeRadius avoidRadius px py : ℚ)
    (asteroids : List (ℚ × ℚ)) (rng : ℕ → ℚ)
    (h0 : 0 ≤ rng 40) (h1 : rng 40 < 1) :
    (∃ p, AsteroidSpawner.findSafeSpawnPosition sqrtq screenW screenH safeRadius
        avoidRadius px py asteroids rng = some p) ∧
    ((List.range 20).findSome? (AsteroidSpawner.safeSpawnAttempt sqrtq screenW screenH
          avoidRadius px py asteroids rng) = none →
      AsteroidSpawner.findSafeSpawnPosition sqrtq screenW screenH safeRadius
          avoidRadius px py asteroids rng =
        AsteroidSpawner.findEdgeSpawnPosition sqrtq screenW screenH safeRadius px py
          (fun n => rng (40 + n))) ∧
    (∀ pt, (List.range 20).findSome? (AsteroidSpawner.safeSpawnAttempt sqrtq screenW
          screenH avoidRadius px py asteroids rng) = some pt →
      AsteroidSpawner.findSafeSpawnPosition sqrtq screenW screenH safeRadius
          avoidRadius px py asteroids rng = some pt ∧
        avoidRadius ≤ MathUtils.distance sqrtq pt.1 pt.2 px py ∧
        AsteroidSpawner.isPositionOccupied sqrtq pt.1 pt.2 50 asteroids = false) ∧
    (∀ rng2 : ℕ → ℚ, 0 ≤ rng2 0 → rng2 0 < 1 →
      ∃ p, AsteroidSpawner.edgeBasePoint screenW screenH 50
          (MathUtils.randomInt (rng2 0) 0 3) (rng2 1) = some p ∧
        AsteroidSpawner.findEdgeSpawnPosition sqrtq screenW screenH safeRadius px py rng2 =
          some (if MathUtils.distance sqrtq p.1 p.2 px py < safeRadius
            then AsteroidSpawner.edgeFlipPoint screenW screenH 50
              (MathUtils.randomInt (rng2 0) 0 3) p
            else p)) := by
  have hshift0 : (0 : ℚ) ≤ (fun n => rng (40 + n)) 0 := by simpa using h0
  have hshift1 : (fun n => rng (40 + n)) 0 < 1 := by simpa using h1
  have hattempt : ∀ pt, ∀ i : ℕ, AsteroidSpawner.safeSpawnAttempt sqrtq screenW screenH
      avoidRadius px py asteroids rng i = some pt →
      avoidRadius ≤ MathUtils.distance sqrtq pt.1 pt.2 px py ∧
      AsteroidSpawner.isPositionOccupied sqrtq pt.1 pt.2 50 asteroids = false := by
    intro pt i hi
    rw [AsteroidSpawner.safeSpawnAttempt] at hi
    by_cases hd : avoidRadius ≤ MathUtils.distance sqrtq
        (MathUtils.randomFloat (rng (2 * i)) 0 screenW)
        (MathUtils.randomFloat (rng (2 * i + 1)) 0 screenH) px py
    · rw [if_pos hd] at hi
      by_cases hocc : AsteroidSpawner.isPositionOccupied sqrtq
          (MathUtils.randomFloat (rng (2 * i)) 0 screenW)
          (MathUtils.randomFloat (rng (2 * i + 1)) 0 screenH) 50 asteroids = true
      · rw [if_pos hocc] at hi; exact absurd hi (by simp)
      · simp only [hocc, if_false] at hi
        obtain rfl : pt = (MathUtils.randomFloat (rng (2 * i)) 0 screenW,
            MathUtils.randomFloat (rng (2 * i + 1)) 0 screenH) := by
          exact (Option.some.injEq _ _ ▸ hi).symm
        simp only [Bool.not_eq_true] at hocc
        exact ⟨hd, hocc⟩
    · rw [if_neg hd] at hi; exact absurd hi (by simp)
  refine ⟨?_, ?_, ?_, ?_⟩
  · cases hfs : (List.range 20).findSome? (AsteroidSpawner.safeSpawnAttempt sqrtq screenW
        screenH avoidRadius px py asteroids rng) with
    | some pt =>
        exact ⟨pt, by rw [AsteroidSpawner.findSafeSpawnPosition, hfs]⟩
    | none =>
        obtain ⟨p, _, hp⟩ := AsteroidSpawner.findEdge_char sqrtq screenW screenH safeRadius
          px py (fun n => rng (40 + n)) hshift0 hshift1
        exact ⟨_, by rw [AsteroidSpawner.findSafeSpawnPosition, hfs]; exact hp⟩
  · intro hfs
    rw [AsteroidSpawner.findSafeSpawnPosition, hfs]
  · intro pt hfs
    refine ⟨by rw [AsteroidSpawner.findSafeSpawnPosition, hfs], ?_⟩
    obtain ⟨i, _, hi⟩ := List.exists_of_findSome?_eq_some hfs
    exact hattempt pt i hi
  · intro rng2 g0 g1
    exact AsteroidSpawner.findEdge_char sqrtq screenW screenH safeRadius px py rng2 g0 g1

/-- Witness for C5: the search with constant draw `1/2`, zero square-root
oracle, an empty asteroid list and the configured radii returns a position. -/
theorem claim_c5_witness :
    (0 : ℚ) ≤ 1 / 2 ∧ (1 / 2 : ℚ) < 1 ∧
    ∃ p, AsteroidSpawner.findSafeSpawnPosition (fun _ => 0) 800 600 150 150 400 300 []
        (fun _ => 1 / 2) = some p :=
  ⟨by norm_num, by norm_num,
    (claim_c5_spawnSearch (fun _ => 0) 800 600 150 150 400 300 [] (fun _ => 1 / 2)
      (by norm_num) (by norm_num)).1⟩

/-- Counterexample for C5's flip clause: with player `(400, 300)` on an
`800 × 600` screen, `avoidRadius = 400`, no asteroids, the constant draw
`1/2` (so every interior sample lands on the player and is rejected) and a
square-root oracle agreeing with the true square root on the used inputs,
the code returns the bottom-edge point `(400, 650)` unflipped even though it
is within `avoidRadius` of the player (distance `350 < 400`); the claim's
fallback (flip whenever within `avoidRadius`) yields `(400, -50)` instead —
the code flips only within `safeSpawnRadius = 150`. -/
theorem claim_c5_counterexample :
    AsteroidSpawner.findSafeSpawnPosition (fun s => if s = 122500 then 350 else 0)
        800 600 150 400 400 300 [] (fun _ => 1 / 2) = some (400, 650) ∧
    AsteroidSpawner.edgeSpawnPerClaim (fun s => if s = 122500 then 350 else 0)
        800 600 400 400 300 (fun _ => 1 / 2) = some (400, -50) ∧
    MathUtils.distance (fun s => if s = 122500 then 350 else 0) 400 650 400 300 < 400 := by
  have hedge : MathUtils.randomInt ((1 : ℚ) / 2) 0 3 = 2 := by
    rw [MathUtils.randomInt]
    rw [show ((3 - 0 + 1 : ℤ) : ℚ) = 4 by norm_num]
    rw [show (1 : ℚ) / 2 * 4 = 2 by norm_num]
    norm_num
  have hdist : MathUtils.distance (fun s => if s = 122500 then 350 else (0 : ℚ))
      400 650 400 300 = 350 := by
    rw [MathUtils.distance, MathUtils.magnitude]
    norm_num
  have hdist2 : MathUtils.distance (fun s => if s = 122500 then 350 else (0 : ℚ))
      400 300 400 650 = 350 := by
    rw [MathUtils.distance, MathUtils.magnitude]
    norm_num
  have hnone : (List.range 20).findSome? (AsteroidSpawner.safeSpawnAttempt
      (fun s => if s = 122500 then 350 else 0) 800 600 400 400 300 [] (fun _ => 1 / 2)) =
      none := by
    rw [List.findSome?_eq_none_iff]
    intro i _
    rw [AsteroidSpawner.safeSpawnAttempt]
    rw [if_neg]
    rw [MathUtils.randomFloat, MathUtils.randomFloat, MathUtils.distance, MathUtils.magnitude]
    norm_num
  have hbase : AsteroidSpawner.edgeBasePoint 800 600 50 2 ((1 : ℚ) / 2) =
      some (400, 650) := by
    rw [AsteroidSpawner.edgeBasePoint]
    norm_num [MathUtils.randomFloat]
  refine ⟨?_, ?_, by rw [hdist]; norm_num⟩
  · rw [AsteroidSpawner.findSafeSpawnPosition, hnone]
    simp only [AsteroidSpawner.findEdgeSpawnPosition, hedge, hbase]
    rw [hdist]
    norm_num
  · simp only [AsteroidSpawner.edgeSpawnPerClaim, hedge, hbase]
    rw [hdist]
    norm_num [AsteroidSpawner.edgeFlipPoint]

/-- Counterexample for C4: with full capacity free, destroying a LARGE
asteroid spawns exactly `5` shards regardless of the wave, whereas the
claim's wave-3 yield `round(5 × 1.05²)` is `6`: the wave multiplier is not
applied anywhere in `spawnShardsFromAsteroid`. -/
theorem claim_c4_counterexample :
    (({ activeShards := [], pool := [], maxActiveShards := 50, nextShardId := 0,
          config := SHARD_CONFIG } : ShardManager).spawnShardsFromAsteroid .large 0 0
        (fun _ => 1) (fun _ => 0) 3 (fun _ => 0)).2.length = 5 ∧
    specYieldAtWave .large 3 = 6 ∧ (5 : ℤ) ≠ 6 := by
  refine ⟨?_, ?_, by norm_num⟩
  · have h := (ShardManager.spawnShardsLoop_spec 5 0 0 (fun _ => 1) (fun _ => 0) 3
      (fun _ => 0) (List.range 5)
      (({ activeShards := [], pool := [], maxActiveShards := 50, nextShardId := 0,
          config := SHARD_CONFIG } : ShardManager), [])).1
    simpa [ShardManager.spawnShardsFromAsteroid, SHARD_CONFIG] using h
  · rw [specYieldAtWave, jsRound, show SHARD_CONFIG.baseYield .large = 5 from rfl]
    rw [show ((5 : ℕ) : ℚ) * (21 / 20) ^ (3 - 1) + 1 / 2 = 481 / 80 by norm_num]
    rw [Int.floor_eq_iff]
    norm_num

/-- Claim C4 amended: `spawnShardsFromAsteroid` spawns exactly
`baseYield[asteroidSize]` shards whenever that many fit under
`maxActiveShards`, and in general the requested count capped by the remaining
capacity — at every wave alike: the code consults no wave number and applies
no wave scaling. -/
theorem claim_c4_yield (m : ShardManager) (size : AsteroidSize) (x y : ℚ)
    (cosq sinq : ℚ → ℚ) (piQ : ℚ) (rng : ℕ → ℚ) :
    (m.spawnShardsFromAsteroid size x y cosq sinq piQ rng).2.length =
      min (m.config.baseYield size) (m.maxActiveShards - m.activeShards.length) := by
  have h := (ShardManager.spawnShardsLoop_spec (m.config.baseYield size) x y cosq sinq piQ
    rng (List.range (m.config.baseYield size)) (m, [])).1
  simpa [ShardManager.spawnShardsFromAsteroid] using h

/-- An inactive shard is untouched by any sequence of updates and emits no
events. -/
theorem Shard.runUpdates_inactive (sqrtq : ℚ → ℚ) (s : Shard)
    (h : s.isActive = false) (dts : List ℚ) :
    s.runUpdates sqrtq dts = (s, []) := by
  induction dts with
  | nil => rfl
  | cons d dts ih => simp [Shard.runUpdates, Shard.update, h, ih]

/-- Characterisation of a run of per-frame updates on an active shard with
positive remaining lifetime and non-negative frame deltas: it stays active
exactly while the accumulated delta is below `timeToLive`, and the expiry
event fires exactly when the accumulated delta reaches it. -/
theorem Shard.runUpdates_char (sqrtq : ℚ → ℚ) (dts : List ℚ)
    (hdts : ∀ d ∈ dts, 0 ≤ d) (s : Shard) (hact : s.isActive = true)
    (hpos : 0 < s.timeToLive) :
    ((s.runUpdates sqrtq dts).1.isActive = true ↔ dts.sum < s.timeToLive) ∧
    (ShardEvent.expired ∈ (s.runUpdates sqrtq dts).2 ↔ s.timeToLive ≤ dts.sum) := by
  induction dts generalizing s with
  | nil =>
      simp only [Shard.runUpdates, List.sum_nil, List.not_mem_nil, false_iff, not_le, hact,
        true_iff]
      exact ⟨hpos, hpos⟩
  | cons d dts ih =>
      have hd : 0 ≤ d := hdts d (List.mem_cons_self d dts)
      have hdts' : ∀ x ∈ dts, 0 ≤ x := fun x hx => hdts x (List.mem_cons_of_mem d hx)
      have hsum : 0 ≤ dts.sum := List.sum_nonneg hdts'
      by_cases hexp : s.timeToLive - d ≤ 0
      · simp only [Shard.runUpdates, Shard.update, hact, if_true, hexp, Shard.expire,
          List.sum_cons]
        rw [Shard.runUpdates_inactive sqrtq _ rfl]
        constructor
        · constructor
          · intro h; exact absurd h (by simp [Shard.deactivate])
          · intro h; exfalso; linarith
        · simp only [List.append_nil, List.mem_singleton, true_iff]
          linarith
      · push_neg at hexp
        simp only [Shard.runUpdates, Shard.update, hact, if_true, not_le.mpr hexp, if_false,
          List.nil_append, List.sum_cons]
        obtain ⟨i1, i2⟩ :=
          ih hdts' { s with timeToLive := s.timeToLive - d, isActive := true } rfl
            (by simpa using hexp)
        constructor
        · rw [i1]
          constructor <;> intro h <;> · dsimp only at * ; linarith
        · rw [i2]
          constructor <;> intro h <;> · dsimp only at * ; linarith

/-- Claim C7: A shard spawned with lifespan `L` stays active exactly while the
accumulated update deltas stay below `L` and fires the expiry notification
exactly when they reach `L`; moreover an update that triggers expiry returns
early with the deactivated shard (no attraction is applied). -/
theorem claim_c7_lifetime (sqrtq : ℚ → ℚ) (s : Shard) (dts : List ℚ)
    (hact : s.isActive = true) (hpos : 0 < s.timeToLive)
    (hdts : ∀ d ∈ dts, 0 ≤ d) :
    ((s.runUpdates sqrtq dts).1.isActive = true ↔ dts.sum < s.timeToLive) ∧
    (ShardEvent.expired ∈ (s.runUpdates sqrtq dts).2 ↔ s.timeToLive ≤ dts.sum) ∧
    (∀ (dt : ℚ) (p : ℚ × ℚ) (magnetRadius magnetForce : ℚ), s.timeToLive - dt ≤ 0 →
      s.update sqrtq dt (some p) (some magnetRadius) (some magnetForce) =
        (({ s with timeToLive := s.timeToLive - dt } : Shard).deactivate,
          [ShardEvent.expired])) := by
  obtain ⟨h1, h2⟩ := Shard.runUpdates_char sqrtq dts hdts s hact hpos
  refine ⟨h1, h2, ?_⟩
  intro dt p magnetRadius magnetForce hexp
  simp only [Shard.update, hact, if_true, hexp, Shard.expire]

/-- Witness for C7: a shard spawned with the configured `4000 ms` lifespan is
still active after `update(3999)` and fires the expiry event on a single
`update(4000)`. -/
theorem claim_c7_witness :
    ((((Shard.construct 0 0).spawn 10 10 SHARD_CONFIG 1 (fun _ => 1) (fun _ => 0) 3
        (fun _ => 0)).1.runUpdates (fun _ => 0) [3999]).1.isActive = true) ∧
    (ShardEvent.expired ∈ (((Shard.construct 0 0).spawn 10 10 SHARD_CONFIG 1 (fun _ => 1)
        (fun _ => 0) 3 (fun _ => 0)).1.runUpdates (fun _ => 0) [4000]).2) := by
  have hA := (claim_c7_lifetime (fun _ => 0)
    (((Shard.construct 0 0).spawn 10 10 SHARD_CONFIG 1 (fun _ => 1) (fun _ => 0) 3
        (fun _ => 0)).1) [3999] rfl (by norm_num [Shard.spawn, SHARD_CONFIG])
    (by intro d hd; simp at hd; rw [hd]; norm_num)).1
  have hB := (claim_c7_lifetime (fun _ => 0)
    (((Shard.construct 0 0).spawn 10 10 SHARD_CONFIG 1 (fun _ => 1) (fun _ => 0) 3
        (fun _ => 0)).1) [4000] rfl (by norm_num [Shard.spawn, SHARD_CONFIG])
    (by intro d hd; simp at hd; rw [hd]; norm_num)).2.1
  constructor
  · exact hA.mpr (by norm_num [Shard.spawn, SHARD_CONFIG])
  · exact hB.mpr (by norm_num [Shard.spawn, SHARD_CONFIG])

/-- Source `getAsteroid` preserves the capacity invariant: it refuses to spawn at
capacity and otherwise grows the active set by one below capacity. -/
theorem AsteroidManager.getAsteroid_capInv (m : AsteroidManager) (size : AsteroidSize)
    (x y : ℚ) (v : Option (ℚ × ℚ)) (av : Option ℚ) (cosq sinq : ℚ → ℚ) (piQ : ℚ)
    (rng : ℕ → ℚ) (h : m.capInv) :
    (m.getAsteroid size x y v av cosq sinq piQ rng).1.capInv := by
  unfold AsteroidManager.capInv at h ⊢
  rw [AsteroidManager.getAsteroid]
  by_cases hc : m.maxActive ≤ m.activeAsteroids.length
  · rw [if_pos hc]; exact h
  · rw [if_neg hc]
    cases hp : m.pools size <;> simp [hp] <;> omega

/-- Source `returnAsteroid` preserves the capacity invariant (it only removes). -/
theorem AsteroidManager.returnAsteroid_capInv (m : AsteroidManager) (a : Asteroid)
    (h : m.capInv) : (m.returnAsteroid a).capInv := by
  unfold AsteroidManager.capInv at h ⊢
  rw [AsteroidManager.returnAsteroid]
  split_ifs with hc
  · exact le_trans (List.length_filter_le _ _) h
  · exact h

/-- Source `destroyAsteroid` preserves the capacity invariant. -/
theorem AsteroidManager.destroyAsteroid_capInv (m : AsteroidManager) (a : Asteroid)
    (causeSplit : Bool) (cosq sinq sqrtq : ℚ → ℚ) (piQ : ℚ) (rng : ℕ → ℚ)
    (h : m.capInv) : (m.destroyAsteroid a causeSplit cosq sinq sqrtq piQ rng).1.capInv := by
  rw [AsteroidManager.destroyAsteroid]
  by_cases hc : (m.activeAsteroids.any fun b => b.id == a.id) = true
  · rw [if_pos hc]
    exact AsteroidManager.returnAsteroid_capInv _ a h
  · rw [if_neg hc]
    exact h

/-- The fragment loop of `createSplitAsteroids` preserves the capacity
invariant. -/
theorem AsteroidManager.createSplitsLoop_capInv (cosq sinq : ℚ → ℚ) (piQ : ℚ)
    (ds : List AsteroidData) :
    ∀ acc : AsteroidManager × List Asteroid, acc.1.capInv →
      (AsteroidManager.createSplitsLoop cosq sinq piQ acc ds).1.capInv := by
  induction ds with
  | nil => intro acc h; exact h
  | cons d ds ih =>
      intro acc h
      have hg := AsteroidManager.getAsteroid_capInv acc.1 d.size d.posX d.posY
        (some (d.velX, d.velY)) (some d.angularVelocity) cosq sinq piQ (fun _ => 0) h
      simp only [AsteroidManager.createSplitsLoop]
      cases hr : (acc.1.getAsteroid d.size d.posX d.posY (some (d.velX, d.velY))
          (some d.angularVelocity) cosq sinq piQ (fun _ => 0)).2 with
      | some a => simp only [hr]; exact ih _ hg
      | none => simp only [hr]; exact ih _ hg

/-- Source `createSplitAsteroids` preserves the capacity invariant. -/
theorem AsteroidManager.createSplitAsteroids_capInv (m : AsteroidManager)
    (ds : List AsteroidData) (cosq sinq : ℚ → ℚ) (piQ : ℚ) (h : m.capInv) :
    (m.createSplitAsteroids ds cosq sinq piQ).1.capInv :=
  AsteroidManager.createSplitsLoop_capInv cosq sinq piQ ds (m, []) h

/-- Source `damageAsteroid` preserves the capacity invariant. -/
theorem AsteroidManager.damageAsteroid_capInv (m : AsteroidManager) (id : ℕ)
    (damage : ℚ) (cosq sinq sqrtq : ℚ → ℚ) (piQ : ℚ) (rng : ℕ → ℚ) (h : m.capInv) :
    (m.damageAsteroid id damage cosq sinq sqrtq piQ rng).1.capInv := by
  rw [AsteroidManager.damageAsteroid]
  cases hf : m.activeAsteroids.find? (fun b => b.id == id) with
  | none => exact h
  | some a =>
      simp only []
      have hmap :
          ({ m with activeAsteroids := m.activeAsteroids.map
                        (fun b => if b.id == id then (a.takeDamage damage).1 else b) } :
              AsteroidManager).capInv := by
        unfold AsteroidManager.capInv at h ⊢
        simpa using h
      by_cases hd : (a.takeDamage damage).2 = true
      · simp only [hd, if_true]
        exact AsteroidManager.createSplitsLoop_capInv _ _ _ _ _
          (AsteroidManager.destroyAsteroid_capInv _ _ _ _ _ _ _ _ hmap)
      · simp only [Bool.not_eq_true] at hd
        simp only [hd, Bool.false_eq_true, if_false]
        exact hmap

/-- Source `AsteroidManager.update` preserves the capacity invariant. -/
theorem AsteroidManager.updateAst_capInv (m : AsteroidManager)
    (hw hh l r t b : ℚ) (h : m.capInv) : (m.update hw hh l r t b).capInv := by
  unfold AsteroidManager.capInv at h ⊢
  simpa [AsteroidManager.update] using h

/-- Folding `returnAsteroid` preserves the capacity invariant. -/
theorem AsteroidManager.returnFoldAst_capInv (l : List Asteroid) :
    ∀ m : AsteroidManager, m.capInv →
      (l.foldl (fun acc a => acc.returnAsteroid a) m).capInv := by
  induction l with
  | nil => intro m h; exact h
  | cons a l ih =>
      intro m h
      rw [List.foldl_cons]
      exact ih _ (AsteroidManager.returnAsteroid_capInv m a h)

/-- Source `clearAllAsteroids` preserves the capacity invariant. -/
theorem AsteroidManager.clearAllAsteroids_capInv (m : AsteroidManager) (h : m.capInv) :
    m.clearAllAsteroids.capInv :=
  AsteroidManager.returnFoldAst_capInv m.activeAsteroids m h

/-- Every `AsteroidOp` preserves the capacity invariant. -/
theorem applyAsteroidOp_capInv (cosq sinq sqrtq : ℚ → ℚ) (piQ : ℚ)
    (m : AsteroidManager) (op : AsteroidOp) (h : m.capInv) :
    (applyAsteroidOp cosq sinq sqrtq piQ m op).capInv := by
  cases op with
  | spawn size x y v av rng => exact AsteroidManager.getAsteroid_capInv _ _ _ _ _ _ _ _ _ _ h
  | ret a => exact AsteroidManager.returnAsteroid_capInv _ _ h
  | destroy a c rng => exact AsteroidManager.destroyAsteroid_capInv _ _ _ _ _ _ _ _ h
  | createSplits ds => exact AsteroidManager.createSplitAsteroids_capInv _ _ _ _ _ h
  | damage id amount rng => exact AsteroidManager.damageAsteroid_capInv _ _ _ _ _ _ _ _ h
  | tick hw hh l r t b => exact AsteroidManager.updateAst_capInv _ _ _ _ _ _ _ h
  | clear => exact AsteroidManager.clearAllAsteroids_capInv _ h

/-- Any sequence of `AsteroidOp`s preserves the capacity invariant. -/
theorem runAsteroidOps_capInv (cosq sinq sqrtq : ℚ → ℚ) (piQ : ℚ)
    (ops : List AsteroidOp) :
    ∀ m : AsteroidManager, m.capInv →
      (runAsteroidOps cosq sinq sqrtq piQ m ops).capInv := by
  induction ops with
  | nil => intro m h; exact h
  | cons op ops ih =>
      intro m h
      rw [runAsteroidOps, List.foldl_cons]
      exact ih _ (applyAsteroidOp_capInv cosq sinq sqrtq piQ m op h)

/-- Source `fireBullet` preserves the capacity invariant. -/
theorem BulletManager.fireBullet_capInv (m : BulletManager) (x y angle : ℚ)
    (config : WeaponConfig) (cosq sinq : ℚ → ℚ) (h : m.capInv) :
    (m.fireBullet x y angle config cosq sinq).1.capInv := by
  unfold BulletManager.capInv at h ⊢
  rw [BulletManager.fireBullet]
  by_cases hc : m.maxActiveBullets ≤ m.activeBullets.length
  · rw [if_pos hc]; exact h
  · rw [if_neg hc]
    cases hp : m.pool <;> simp [hp] <;> omega

/-- Source `returnBullet` preserves the capacity invariant. -/
theorem BulletManager.returnBullet_capInv (m : BulletManager) (b : Bullet)
    (h : m.capInv) : (m.returnBullet b).capInv := by
  unfold BulletManager.capInv at h ⊢
  rw [BulletManager.returnBullet]
  split_ifs with hc
  · exact le_trans (List.length_filter_le _ _) h
  · exact h

/-- Source `BulletManager.update` preserves the capacity invariant. -/
theorem BulletManager.updateBullet_capInv (m : BulletManager)
    (dt hw hh l r t b : ℚ) (h : m.capInv) : (m.update dt hw hh l r t b).capInv := by
  unfold BulletManager.capInv at h ⊢
  rw [BulletManager.update]
  refine le_trans (le_trans (List.length_filter_le _ _) ?_) h
  simp

/-- Source `clearAllBullets` preserves the capacity invariant. -/
theorem BulletManager.clearAllBullets_capInv (m : BulletManager) (h : m.capInv) :
    m.clearAllBullets.capInv := by
  unfold BulletManager.capInv at h ⊢
  simp [BulletManager.clearAllBullets]

/-- Every `BulletOp` preserves the capacity invariant. -/
theorem applyBulletOp_capInv (cosq sinq : ℚ → ℚ) (m : BulletManager) (op : BulletOp)
    (h : m.capInv) : (applyBulletOp cosq sinq m op).capInv := by
  cases op with
  | fire x y angle config => exact BulletManager.fireBullet_capInv _ _ _ _ _ _ _ h
  | ret b => exact BulletManager.returnBullet_capInv _ _ h
  | tick dt hw hh l r t b => exact BulletManager.updateBullet_capInv _ _ _ _ _ _ _ _ h
  | clear => exact BulletManager.clearAllBullets_capInv _ h

/-- Any sequence of `BulletOp`s preserves the capacity invariant. -/
theorem runBulletOps_capInv (cosq sinq : ℚ → ℚ) (ops : List BulletOp) :
    ∀ m : BulletManager, m.capInv → (runBulletOps cosq sinq m ops).capInv := by
  induction ops with
  | nil => intro m h; exact h
  | cons op ops ih =>
      intro m h
      rw [runBulletOps, List.foldl_cons]
      exact ih _ (applyBulletOp_capInv cosq sinq m op h)

/-- Source `spawnShard` preserves the capacity invariant. -/
theorem ShardManager.spawnShard_capInv (m : ShardManager) (x y : ℚ)
    (cosq sinq : ℚ → ℚ) (piQ : ℚ) (rng : ℕ → ℚ) (h : m.capInv) :
    (m.spawnShard x y cosq sinq piQ rng).1.capInv := by
  obtain ⟨hlen, hmax, -⟩ := ShardManager.spawnShard_state m x y cosq sinq piQ rng
  unfold ShardManager.capInv at h ⊢
  rw [hlen, hmax]
  split_ifs with hc
  · exact h
  · omega

/-- Source `spawnShardsFromAsteroid` preserves the capacity invariant. -/
theorem ShardManager.spawnShardsFromAsteroid_capInv (m : ShardManager)
    (size : AsteroidSize) (x y : ℚ) (cosq sinq : ℚ → ℚ) (piQ : ℚ) (rng : ℕ → ℚ)
    (h : m.capInv) : (m.spawnShardsFromAsteroid size x y cosq sinq piQ rng).1.capInv := by
  obtain ⟨-, hlen, hmax⟩ := (ShardManager.spawnShardsLoop_spec (m.config.baseYield size)
    x y cosq sinq piQ rng (List.range (m.config.baseYield size)) (m, []))
  unfold ShardManager.capInv at h ⊢
  rw [ShardManager.spawnShardsFromAsteroid]
  simp only at hlen hmax
  rw [hlen, hmax]
  omega

/-- Source `returnShard` preserves the capacity invariant. -/
theorem ShardManager.returnShard_capInv (m : ShardManager) (s : Shard)
    (h : m.capInv) : (m.returnShard s).capInv := by
  unfold ShardManager.capInv at h ⊢
  rw [ShardManager.returnShard]
  split_ifs with hc
  · exact le_trans (List.length_filter_le _ _) h
  · exact h

/-- Source `ShardManager.update` preserves the capacity invariant. -/
theorem ShardManager.updateShard_capInv (m : ShardManager) (sqrtq : ℚ → ℚ)
    (dt px py : ℚ) (h : m.capInv) : (m.update sqrtq dt px py).capInv := by
  unfold ShardManager.capInv at h ⊢
  rw [ShardManager.update]
  refine le_trans ?_ h
  simp only [List.length_map]
  exact le_trans (List.length_filter_le _ _) (by simp)

/-- Source `checkCollisions` preserves the capacity invariant. -/
theorem ShardManager.checkCollisions_capInv (m : ShardManager) (sqrtq : ℚ → ℚ)
    (px py : ℚ) (h : m.capInv) : (m.checkCollisions sqrtq px py).capInv := by
  unfold ShardManager.capInv at h ⊢
  rw [ShardManager.checkCollisions]
  exact le_trans (List.length_filter_le _ _) h

/-- Folding `returnShard` preserves the capacity invariant. -/
theorem ShardManager.returnFoldShard_capInv (l : List Shard) :
    ∀ m : ShardManager, m.capInv →
      (l.foldl (fun acc s => acc.returnShard s) m).capInv := by
  induction l with
  | nil => intro m h; exact h
  | cons s l ih =>
      intro m h
      rw [List.foldl_cons]
      exact ih _ (ShardManager.returnShard_capInv m s h)

/-- Source `clearAllShards` preserves the capacity invariant. -/
theorem ShardManager.clearAllShards_capInv (m : ShardManager) (h : m.capInv) :
    m.clearAllShards.capInv :=
  ShardManager.returnFoldShard_capInv m.activeShards m h

/-- Every `ShardOp` preserves the capacity invariant. -/
theorem applyShardOp_capInv (cosq sinq sqrtq : ℚ → ℚ) (piQ : ℚ) (m : ShardManager)
    (op : ShardOp) (h : m.capInv) : (applyShardOp cosq sinq sqrtq piQ m op).capInv := by
  cases op with
  | spawnOne x y rng => exact ShardManager.spawnShard_capInv _ _ _ _ _ _ _ h
  | spawnFrom size x y rng =>
      exact ShardManager.spawnShardsFromAsteroid_capInv _ _ _ _ _ _ _ _ h
  | ret s => exact ShardManager.returnShard_capInv _ _ h
  | tick dt px py => exact ShardManager.updateShard_capInv _ _ _ _ _ h
  | collisions px py => exact ShardManager.checkCollisions_capInv _ _ _ _ h
  | clear => exact ShardManager.clearAllShards_capInv _ h

/-- Any sequence of `ShardOp`s preserves the capacity invariant. -/
theorem runShardOps_capInv (cosq sinq sqrtq : ℚ → ℚ) (piQ : ℚ) (ops : List ShardOp) :
    ∀ m : ShardManager, m.capInv → (runShardOps cosq sinq sqrtq piQ m ops).capInv := by
  induction ops with
  | nil => intro m h; exact h
  | cons op ops ih =>
      intro m h
      rw [runShardOps, List.foldl_cons]
      exact ih _ (applyShardOp_capInv cosq sinq sqrtq piQ m op h)

/-- Claim C2: For each of the three managers, `activeSet.size ≤ maxActive` is
preserved by every prefix of every sequence of manager operations (so it
holds at all times); a single spawn requested at or above capacity returns
`null`; and a batch spawn yields exactly the requested count capped by the
remaining capacity — a shorter-than-requested array, never an error. -/
theorem claim_c2_capacity :
    (∀ (cosq sinq sqrtq : ℚ → ℚ) (piQ : ℚ) (m : AsteroidManager)
      (ops : List AsteroidOp) (n : ℕ), m.capInv →
      (runAsteroidOps cosq sinq sqrtq piQ m (ops.take n)).capInv) ∧
    (∀ (cosq sinq : ℚ → ℚ) (m : BulletManager) (ops : List BulletOp) (n : ℕ),
      m.capInv → (runBulletOps cosq sinq m (ops.take n)).capInv) ∧
    (∀ (cosq sinq sqrtq : ℚ → ℚ) (piQ : ℚ) (m : ShardManager) (ops : List ShardOp)
      (n : ℕ), m.capInv → (runShardOps cosq sinq sqrtq piQ m (ops.take n)).capInv) ∧
    (∀ (m : AsteroidManager) (size : AsteroidSize) (x y : ℚ) (v : Option (ℚ × ℚ))
      (av : Option ℚ) (cosq sinq : ℚ → ℚ) (piQ : ℚ) (rng : ℕ → ℚ),
      m.maxActive ≤ m.activeAsteroids.length →
      (m.getAsteroid size x y v av cosq sinq piQ rng).2 = none) ∧
    (∀ (m : BulletManager) (x y angle : ℚ) (config : WeaponConfig)
      (cosq sinq : ℚ → ℚ), m.maxActiveBullets ≤ m.activeBullets.length →
      (m.fireBullet x y angle config cosq sinq).2 = none) ∧
    (∀ (m : ShardManager) (x y : ℚ) (cosq sinq : ℚ → ℚ) (piQ : ℚ) (rng : ℕ → ℚ),
      m.maxActiveShards ≤ m.activeShards.length →
      (m.spawnShard x y cosq sinq piQ rng).2 = none) ∧
    (∀ (m : ShardManager) (size : AsteroidSize) (x y : ℚ) (cosq sinq : ℚ → ℚ)
      (piQ : ℚ) (rng : ℕ → ℚ),
      (m.spawnShardsFromAsteroid size x y cosq sinq piQ rng).2.length =
        min (m.config.baseYield size) (m.maxActiveShards - m.activeShards.length)) := by
  refine ⟨?_, ?_, ?_, ?_, ?_, ?_, ?_⟩
  · intro cosq sinq sqrtq piQ m ops n h
    exact runAsteroidOps_capInv cosq sinq sqrtq piQ (ops.take n) m h
  · intro cosq sinq m ops n h
    exact runBulletOps_capInv cosq sinq (ops.take n) m h
  · intro cosq sinq sqrtq piQ m ops n h
    exact runShardOps_capInv cosq sinq sqrtq piQ (ops.take n) m h
  · intro m size x y v av cosq sinq piQ rng hc
    rw [AsteroidManager.getAsteroid, if_pos hc]
  · intro m x y angle config cosq sinq hc
    rw [BulletManager.fireBullet, if_pos hc]
  · intro m x y cosq sinq piQ rng hc
    exact (ShardManager.spawnShard_state m x y cosq sinq piQ rng).2.2.mpr hc
  · intro m size x y cosq sinq piQ rng
    have h := (ShardManager.spawnShardsLoop_spec (m.config.baseYield size) x y cosq sinq
      piQ rng (List.range (m.config.baseYield size)) (m, [])).1
    simpa [ShardManager.spawnShardsFromAsteroid] using h

/-- Witness for C2: a concrete asteroid manager below capacity still
satisfies the invariant after a spawn-then-update prefix, and a concrete
shard manager at capacity rejects a spawn. -/
theorem claim_c2_witness :
    ({ activeAsteroids := [], pools := fun _ => [], maxActive := 20, nextId := 1 } :
        AsteroidManager).capInv ∧
    (runAsteroidOps (fun _ => 1) (fun _ => 0) (fun _ => 0) 3
      ({ activeAsteroids := [], pools := fun _ => [], maxActive := 20, nextId := 1 } :
          AsteroidManager)
      ([AsteroidOp.spawn .large 10 10 (some (1, 2)) (some 3) (fun _ => 0),
        AsteroidOp.tick 6 6 0 800 0 600].take 2)).capInv ∧
    (({ activeShards := [Shard.construct 0 0], pool := [], maxActiveShards := 1,
        nextShardId := 4, config := SHARD_CONFIG } : ShardManager).spawnShard 5 5
      (fun _ => 1) (fun _ => 0) 3 (fun _ => 0)).2 = none := by
  refine ⟨by decide, ?_, ?_⟩
  · exact claim_c2_capacity.1 (fun _ => 1) (fun _ => 0) (fun _ => 0) 3 _ _ 2 (by decide)
  · exact claim_c2_capacity.2.2.2.2.2.1 _ 5 5 (fun _ => 1) (fun _ => 0) 3 (fun _ => 0)
      (by decide)

/-- Counterexample for C8: a `BulletManager` update pass does **not** leave
the active set's membership unchanged — a single fired bullet (lifetime
`3000 ms`) is removed from the active set by `update(3001)` itself (expiry
plus the cleanup pass), shrinking the set from `1` to `0` during the
per-tick update. -/
theorem claim_c8_counterexample :
    (({ activeBullets := [], pool := [], maxActiveBullets := 15, nextBulletId := 0 } :
        BulletManager).fireBullet 0 0 0 WEAPON_CONFIG (fun _ => 1)
        (fun _ => 0)).1.activeBullets.length = 1 ∧
    ((({ activeBullets := [], pool := [], maxActiveBullets := 15, nextBulletId := 0 } :
        BulletManager).fireBullet 0 0 0 WEAPON_CONFIG (fun _ => 1)
        (fun _ => 0)).1.update 3001 6 6 0 800 0 600).activeBullets.length = 0 := by
  constructor
  · norm_num [BulletManager.fireBullet, Bullet.construct, Bullet.fire, WEAPON_CONFIG]
  · norm_num [BulletManager.fireBullet, Bullet.construct, Bullet.fire, WEAPON_CONFIG,
      BulletManager.update, Bullet.update, Bullet.expire, Bullet.deactivate, List.filter]

/-- Filtering a mapped list is filtering the original list through the
composed predicate. -/
theorem mapFilterComm {α β : Type} (f : α → β) (p : β → Bool) (l : List α) :
    (l.map f).filter p = (l.filter (fun a => p (f a))).map f := by
  induction l with
  | nil => rfl
  | cons a l ih =>
      by_cases h : p (f a) = true <;> simp [h, ih]

/-- Claim C8 amended: `AsteroidManager.update` leaves the active set's
membership unchanged, and `ShardManager.update` keeps (skips) shards that
were already inactive; but entities that go inactive during the pass are
removed by the pass itself: `BulletManager.update` leaves only still-active
bullets in the set, returning every inactive one to the pool (conservation
of bullets between set and pool), and `ShardManager.update` removes exactly
the shards whose update fired the expiry event, returning them — reset by
the pool's `Shard.deactivate` — to the pool: its resulting active set is
exactly the non-expiring shards (updated in place, already-inactive ones
untouched) and its resulting pool is exactly the expired shards pushed onto
the old pool (conservation likewise). -/
theorem claim_c8_updatePass :
    (∀ (m : AsteroidManager) (hw hh l r t b : ℚ),
      (m.update hw hh l r t b).activeAsteroids.map (fun a => a.id) =
        m.activeAsteroids.map (fun a => a.id)) ∧
    (∀ (m : BulletManager) (dt hw hh l r t b : ℚ),
      (∀ bl ∈ (m.update dt hw hh l r t b).activeBullets, bl.isActive = true) ∧
      (m.update dt hw hh l r t b).activeBullets.length +
          (m.update dt hw hh l r t b).pool.length =
        m.activeBullets.length + m.pool.length) ∧
    (∀ (m : ShardManager) (sqrtq : ℚ → ℚ) (dt px py : ℚ),
      (∀ s ∈ m.activeShards, s.isActive = false →
        s ∈ (m.update sqrtq dt px py).activeShards) ∧
      (∀ s ∈ m.activeShards, s.isActive = true →
        ShardEvent.expired ∉ (s.update sqrtq dt (some (px, py))
          (some m.config.magnetRadius) (some m.config.magnetForce)).2 →
        (s.update sqrtq dt (some (px, py)) (some m.config.magnetRadius)
          (some m.config.magnetForce)).1 ∈ (m.update sqrtq dt px py).activeShards) ∧
      ((m.update sqrtq dt px py).activeShards =
        (m.activeShards.filter (fun s => !(s.isActive &&
            (s.update sqrtq dt (some (px, py)) (some m.config.magnetRadius)
              (some m.config.magnetForce)).2.contains ShardEvent.expired))).map
          (fun s => if s.isActive then (s.update sqrtq dt (some (px, py))
            (some m.config.magnetRadius) (some m.config.magnetForce)).1 else s)) ∧
      ((m.update sqrtq dt px py).pool =
        ((m.activeShards.filter (fun s => s.isActive &&
            (s.update sqrtq dt (some (px, py)) (some m.config.magnetRadius)
              (some m.config.magnetForce)).2.contains ShardEvent.expired)).map
          (fun s => ((s.update sqrtq dt (some (px, py)) (some m.config.magnetRadius)
            (some m.config.magnetForce)).1).deactivate)).reverse ++ m.pool) ∧
      (m.update sqrtq dt px py).activeShards.length +
          (m.update sqrtq dt px py).pool.length =
        m.activeShards.length + m.pool.length) := by
  refine ⟨?_, ?_, ?_⟩
  · intro m hw hh l r t b
    rw [AsteroidManager.update, List.map_map, List.map_eq_map_iff]
    intro a _
    simp only [Function.comp_apply]
    rw [Asteroid.update]
    split_ifs <;> rfl
  · intro m dt hw hh l r t b
    constructor
    · intro bl hbl
      rw [BulletManager.update] at hbl
      simp only [List.mem_filter] at hbl
      exact hbl.2
    · rw [BulletManager.update]
      simp only [List.length_append, List.length_reverse, List.length_map]
      have hpart := List.length_eq_length_filter_add
        (l := m.activeBullets.map
          (fun bl => if bl.isActive then (bl.update dt hw hh l r t b).1 else bl))
        (fun bl => bl.isActive)
      simp at hpart ⊢
      omega
  · intro m sqrtq dt px py
    refine ⟨?_, ?_, ?_, ?_, ?_⟩
    · intro s hs hinactive
      rw [ShardManager.update]
      simp only [List.mem_map]
      refine ⟨(s, []), ?_, rfl⟩
      simp only [List.mem_filter]
      constructor
      · exact List.mem_map.mpr ⟨s, hs, by rw [hinactive]; rfl⟩
      · rfl
    · intro s hs hactive hnoexp
      rw [ShardManager.update]
      simp only [List.mem_map]
      refine ⟨s.update sqrtq dt (some (px, py)) (some m.config.magnetRadius)
        (some m.config.magnetForce), ?_, rfl⟩
      simp only [List.mem_filter]
      constructor
      · exact List.mem_map.mpr ⟨s, hs, by rw [hactive]; rfl⟩
      · simp only [Bool.not_eq_true', ← Bool.not_eq_true]
        intro hc
        exact hnoexp (by simpa using hc)
    · simp only [ShardManager.update]
      rw [mapFilterComm, List.map_map]
      have hfil : m.activeShards.filter
          (fun s => !((if s.isActive then s.update sqrtq dt (some (px, py))
              (some m.config.magnetRadius) (some m.config.magnetForce)
            else (s, [])).2.contains ShardEvent.expired)) =
          m.activeShards.filter (fun s => !(s.isActive &&
            (s.update sqrtq dt (some (px, py)) (some m.config.magnetRadius)
              (some m.config.magnetForce)).2.contains ShardEvent.expired)) :=
        List.filter_congr (fun s _ => by by_cases h : s.isActive = true <;> simp [h])
      rw [hfil]
      exact List.map_congr_left
        (fun s _ => by by_cases h : s.isActive = true <;> simp [Function.comp, h])
    · simp only [ShardManager.update]
      rw [mapFilterComm, List.map_map, List.map_map]
      have hfil : m.activeShards.filter
          (fun s => (if s.isActive then s.update sqrtq dt (some (px, py))
              (some m.config.magnetRadius) (some m.config.magnetForce)
            else (s, [])).2.contains ShardEvent.expired) =
          m.activeShards.filter (fun s => s.isActive &&
            (s.update sqrtq dt (some (px, py)) (some m.config.magnetRadius)
              (some m.config.magnetForce)).2.contains ShardEvent.expired) :=
        List.filter_congr (fun s _ => by by_cases h : s.isActive = true <;> simp [h])
      rw [hfil]
      have hmapeq : (m.activeShards.filter (fun s => s.isActive &&
          (s.update sqrtq dt (some (px, py)) (some m.config.magnetRadius)
            (some m.config.magnetForce)).2.contains ShardEvent.expired)).map
            (Shard.deactivate ∘ (fun r : Shard × List ShardEvent => r.1) ∘
              (fun s => if s.isActive then s.update sqrtq dt (some (px, py))
                (some m.config.magnetRadius) (some m.config.magnetForce) else (s, []))) =
          (m.activeShards.filter (fun s => s.isActive &&
            (s.update sqrtq dt (some (px, py)) (some m.config.magnetRadius)
              (some m.config.magnetForce)).2.contains ShardEvent.expired)).map
            (fun s => ((s.update sqrtq dt (some (px, py)) (some m.config.magnetRadius)
              (some m.config.magnetForce)).1).deactivate) := by
        refine List.map_congr_left (fun s hs => ?_)
        have hp := (List.mem_filter.mp hs).2
        rw [Bool.and_eq_true] at hp
        simp [Function.comp, hp.1]
      rw [← hmapeq]
      rfl
    · rw [ShardManager.update]
      simp only [List.length_append, List.length_reverse, List.length_map]
      have hpart := List.length_eq_length_filter_add
        (l := m.activeShards.map
          (fun s => if s.isActive then s.update sqrtq dt (some (px, py))
            (some m.config.magnetRadius) (some m.config.magnetForce) else (s, [])))
        (fun r => !r.2.contains ShardEvent.expired)
      simp at hpart ⊢
      omega

/-- Witness for C8: a pre-deactivated shard sitting in a concrete manager's
active set survives the update pass (skipped, not removed), while a freshly
spawned shard whose `4000 ms` lifespan elapses during the pass is removed
from the active set and lands in the pool. -/
theorem claim_c8_witness :
    (Shard.construct 0 0) ∈
      ({ activeShards := [Shard.construct 0 0], pool := [], maxActiveShards := 50,
         nextShardId := 0, config := SHARD_CONFIG } : ShardManager).activeShards ∧
    (Shard.construct 0 0).isActive = false ∧
    (Shard.construct 0 0) ∈
      (({ activeShards := [Shard.construct 0 0], pool := [], maxActiveShards := 50,
          nextShardId := 0, config := SHARD_CONFIG } : ShardManager).update
        (fun _ => 0) 16 0 0).activeShards ∧
    (({ activeShards := [((Shard.construct 0 0).spawn 10 10 SHARD_CONFIG 1 (fun _ => 1)
          (fun _ => 0) 3 (fun _ => 0)).1], pool := [], maxActiveShards := 50,
        nextShardId := 2, config := SHARD_CONFIG } : ShardManager).update
      (fun _ => 0) 4000 0 0).activeShards = [] ∧
    (({ activeShards := [((Shard.construct 0 0).spawn 10 10 SHARD_CONFIG 1 (fun _ => 1)
          (fun _ => 0) 3 (fun _ => 0)).1], pool := [], maxActiveShards := 50,
        nextShardId := 2, config := SHARD_CONFIG } : ShardManager).update
      (fun _ => 0) 4000 0 0).pool.length = 1 := by
  have hempty :
      (({ activeShards := [((Shard.construct 0 0).spawn 10 10 SHARD_CONFIG 1 (fun _ => 1)
            (fun _ => 0) 3 (fun _ => 0)).1], pool := [], maxActiveShards := 50,
          nextShardId := 2, config := SHARD_CONFIG } : ShardManager).update
        (fun _ => 0) 4000 0 0).activeShards = [] := by
    rw [(claim_c8_updatePass.2.2 _ (fun _ => 0) 4000 0 0).2.2.1]
    norm_num [Shard.spawn, Shard.construct, Shard.update, Shard.expire, Shard.deactivate,
      SHARD_CONFIG, List.filter]
  refine ⟨List.mem_singleton.mpr rfl, rfl,
    (claim_c8_updatePass.2.2 _ (fun _ => 0) 16 0 0).1 _ (List.mem_singleton.mpr rfl) rfl,
    hempty, ?_⟩
  have h5 := (claim_c8_updatePass.2.2
    ({ activeShards := [((Shard.construct 0 0).spawn 10 10 SHARD_CONFIG 1 (fun _ => 1)
          (fun _ => 0) 3 (fun _ => 0)).1], pool := [], maxActiveShards := 50,
        nextShardId := 2, config := SHARD_CONFIG } : ShardManager) (fun _ => 0)
    4000 0 0).2.2.2.2
  rw [hempty] at h5
  simpa using h5

/-- Claim C6: For every active shard within `magnetRadius` of the player, the
per-tick `update` sets the velocity to the blend
`(1 − b)·current + b·attraction` with the fixed blend factor `b = 0.7`,
where the attraction velocity is the spec's
`unit-vector-toward-player × magnetForce × (1 − distance/magnetRadius)`;
a shard strictly outside `magnetRadius` receives no attraction (velocity
unchanged). -/
theorem claim_c6_magnet (sqrtq : ℚ → ℚ) (s : Shard)
    (dt px py magnetRadius magnetForce : ℚ)
    (hact : s.isActive = true) (httl : 0 < s.timeToLive - dt)
    (hR : magnetRadius ≠ 0) (hF : magnetForce ≠ 0) :
    (MathUtils.distance sqrtq s.posX s.posY px py ≤ magnetRadius →
      (s.update sqrtq dt (some (px, py)) (some magnetRadius) (some magnetForce)).1.velX
          = s.velX * (1 - 7 / 10)
            + (specAttractionVelocity sqrtq s.posX s.posY px py magnetRadius magnetForce).1
              * (7 / 10) ∧
      (s.update sqrtq dt (some (px, py)) (some magnetRadius) (some magnetForce)).1.velY
          = s.velY * (1 - 7 / 10)
            + (specAttractionVelocity sqrtq s.posX s.posY px py magnetRadius magnetForce).2
              * (7 / 10)) ∧
    (magnetRadius < MathUtils.distance sqrtq s.posX s.posY px py →
      (s.update sqrtq dt (some (px, py)) (some magnetRadius) (some magnetForce)).1.velX
          = s.velX ∧
      (s.update sqrtq dt (some (px, py)) (some magnetRadius) (some magnetForce)).1.velY
          = s.velY) := by
  have hnotexp : ¬ (s.timeToLive - dt ≤ 0) := not_le.mpr httl
  constructor
  · intro hle
    simp only [Shard.update, hact, if_true, hnotexp, if_false,
      Shard.handleMagneticAttraction, specAttractionVelocity]
    rw [if_pos ⟨hR, hF⟩, if_pos hle]
    exact ⟨rfl, rfl⟩
  · intro hlt
    have hnotle : ¬ (MathUtils.distance sqrtq s.posX s.posY px py ≤ magnetRadius) :=
      not_le.mpr hlt
    simp only [Shard.update, hact, if_true, hnotexp, if_false,
      Shard.handleMagneticAttraction]
    rw [if_pos ⟨hR, hF⟩, if_neg hnotle]
    by_cases hattr : s.isBeingAttracted = true
    · simp [hattr]
    · simp at hattr
      simp [hattr]

/-- Witness for C6: a freshly spawned shard at the player's position (oracle
square root `fun _ => 0`), one `16 ms` tick. -/
theorem claim_c6_witness :
    (((Shard.construct 0 0).spawn 0 0 SHARD_CONFIG 1 (fun _ => 1) (fun _ => 0) 3
        (fun _ => 0)).1.update (fun _ => 0) 16 (some (0, 0)) (some 160) (some 200)).1.velX
      = ((Shard.construct 0 0).spawn 0 0 SHARD_CONFIG 1 (fun _ => 1) (fun _ => 0) 3
          (fun _ => 0)).1.velX * (1 - 7 / 10)
        + (specAttractionVelocity (fun _ => 0)
            ((Shard.construct 0 0).spawn 0 0 SHARD_CONFIG 1 (fun _ => 1) (fun _ => 0) 3
              (fun _ => 0)).1.posX
            ((Shard.construct 0 0).spawn 0 0 SHARD_CONFIG 1 (fun _ => 1) (fun _ => 0) 3
              (fun _ => 0)).1.posY 0 0 160 200).1 * (7 / 10) := by
  have h := (claim_c6_magnet (fun _ => 0)
    (((Shard.construct 0 0).spawn 0 0 SHARD_CONFIG 1 (fun _ => 1) (fun _ => 0) 3
        (fun _ => 0)).1) 16 0 0 160 200 rfl (by norm_num [Shard.spawn, Shard.construct,
          SHARD_CONFIG]) (by norm_num) (by norm_num)).1
  exact (h (by norm_num [Shard.spawn, Shard.construct, MathUtils.distance,
    MathUtils.magnitude])).1

/-- Witness for C10: the zero-magnitude input `(0, 0)` and a shard sitting
exactly on the player, with the oracle `fun _ => 0` (which satisfies
`sqrtq 0 = 0`). -/
theorem claim_c10_witness :
    MathUtils.normalize (fun _ => 0) 0 0 = (0, 0) ∧
    ((Shard.construct 5 5).handleMagneticAttraction (fun _ => 0) 5 5 160 200).velX
      = (Shard.construct 5 5).velX * (3 / 10) :=
  ⟨(claim_c10_normalize (fun _ => 0) rfl).2.1,
    (((claim_c10_normalize (fun _ => 0) rfl).2.2 (Shard.construct 5 5) 160 200 (by norm_num)).1)⟩

end NeonShards
